import Mathlib

/-
Verification of the hoshina-jobs ingestion pipelines (GADM and OSM).

Shallow embedding of the two Python jobs:
  jobs/gadm-ingestion/src/{__main__,config,database,download,upload}.py
  jobs/osm-ingestion/src/{main,config,database,download,filter,upload}.py

External collaborators (HTTP transport, the PostgreSQL server, the
ogr2ogr / osmium / osm2pgsql binaries, zipfile, hashlib, sqlite3) are
modelled as explicit inputs: an association table from URL to HTTP
response, a database state record, boolean outcomes for external tool
runs, and deterministic stand-in functions for hashing and archive
extraction.  Every observable action of the code itself (HTTP requests,
tool invocations, file writes and deletions, SQL statements) is recorded
in an explicit event trace.
-/

deriving instance DecidableEq for Except

/-! ## Python string primitives -/

/-- Python str.lower restricted to ASCII case mapping. -/
def pyLower (s : String) : String := ⟨s.data.map Char.toLower⟩

/-- Python str.upper restricted to ASCII case mapping. -/
def pyUpper (s : String) : String := ⟨s.data.map Char.toUpper⟩

/-- Python str.strip with no argument: remove leading and trailing whitespace.
Implemented on the character list so that it evaluates inside the kernel. -/
def pyTrim (s : String) : String :=
  ⟨((s.data.dropWhile Char.isWhitespace).reverse.dropWhile Char.isWhitespace).reverse⟩

/-- Python str.rstrip with a slash argument: remove all trailing slash characters,
as used on GEOFABRIK_BASE_URL. -/
def rstripSlashes (s : String) : String := ⟨(s.data.reverse.dropWhile (· = '/')).reverse⟩

/-- Does the second list start with the first one. -/
def startsWithList : List Char → List Char → Bool
  | [], _ => true
  | _ :: _, [] => false
  | p :: ps, x :: xs => p = x && startsWithList ps xs

/-- Does the list contain the pattern as a contiguous sublist. -/
def containsList (pat : List Char) : List Char → Bool
  | [] => pat.isEmpty
  | x :: xs => startsWithList pat (x :: xs) || containsList pat xs

/-- Python substring test (the in operator on str). -/
def containsStr (s pat : String) : Bool := containsList pat.data s.data

/-- Python str.split with a one-character separator, on the character list. -/
def splitOnCharList (c : Char) : List Char → List (List Char)
  | [] => [[]]
  | x :: xs =>
    let r := splitOnCharList c xs
    if x = c then [] :: r
    else
      match r with
      | [] => [[x]]
      | h :: t => (x :: h) :: t

/-- Python str.split with a one-character separator. -/
def pySplit (s : String) (c : Char) : List String :=
  (splitOnCharList c s.data).map (fun l => ⟨l⟩)

/-- One step list of python str.replace: replace non-overlapping occurrences
left to right; the fuel argument is the input length, enough for every call. -/
def replaceAux (pat rep : List Char) : Nat → List Char → List Char
  | _, [] => []
  | 0, l => l
  | fuel + 1, x :: xs =>
    if startsWithList pat (x :: xs) then
      rep ++ replaceAux pat rep fuel (List.drop (pat.length - 1) xs)
    else
      x :: replaceAux pat rep fuel xs

/-- Python str.replace for a nonempty pattern (the only use in the source
replaces the nonempty pattern -latest). -/
def pyReplace (s pat rep : String) : String :=
  if pat.data.isEmpty then s
  else ⟨replaceAux pat.data rep.data s.data.length s.data⟩

/-- Helper for the base-10 digit run of a Python int literal: digits with
single underscores allowed strictly between digits. -/
def digitsCore : Nat → List Char → Option Nat
  | acc, [] => some acc
  | acc, '_' :: c :: rest =>
      if c.isDigit then digitsCore (acc * 10 + (c.toNat - 48)) rest else none
  | _, [ '_' ] => none
  | acc, c :: rest =>
      if c.isDigit then digitsCore (acc * 10 + (c.toNat - 48)) rest else none

/-- Python int(str): strip whitespace, optional sign, then digits with
single underscores between digits; none when the string is not a valid
integer literal (the ValueError case). -/
def pyParseInt (s : String) : Option Int :=
  let t := pyTrim s
  match t.data with
  | [] => none
  | c :: rest =>
    let core : List Char → Option Nat := fun l =>
      match l with
      | [] => none
      | d :: ds => if d.isDigit then digitsCore (d.toNat - 48) ds else none
    if c = '-' then (core rest).map (fun n => -(n : Int))
    else if c = '+' then (core rest).map (fun n => (n : Int))
    else (core t.data).map (fun n => (n : Int))

/-! ## Environment model -/

/-- The process environment: an association list from variable name to value. -/
abbrev Env := List (String × String)

/-- os.getenv with no default: none when the variable is unset. -/
def lookupEnv (env : Env) (key : String) : Option String :=
  (env.find? (fun p => p.1 = key)).map (fun p => p.2)

/-- os.getenv with a default value. -/
def getenvD (env : Env) (key dflt : String) : String :=
  (lookupEnv env key).getD dflt

/-! ## Filesystem model -/

/-- The filesystem: an association list from path to file content. -/
abbrev FS := List (String × String)

/-- Content of a file, none when the path does not exist. -/
def fsRead (fs : FS) (p : String) : Option String :=
  (fs.find? (fun q => q.1 = p)).map (fun q => q.2)

/-- Content of a file with a default for a missing path. -/
def fsReadD (fs : FS) (p dflt : String) : String := (fsRead fs p).getD dflt

/-- Path.exists. -/
def fsExists (fs : FS) (p : String) : Bool := (fsRead fs p).isSome

/-- Write a file, replacing any previous content at the path. -/
def fsWrite (fs : FS) (p content : String) : FS :=
  (p, content) :: fs.filter (fun q => q.1 != p)

/-- Path.unlink. -/
def fsDelete (fs : FS) (p : String) : FS := fs.filter (fun q => q.1 != p)

/-! ## Observable events -/

/-- SQL statements issued by the database layer, kept structured so the
two jobs can be compared statement by statement. -/
inductive SqlOp
  | encodingQuery (dbName : String)
  | updateEncoding (dbName : String)
  | createExt (ext : String)
  | selectPostgisVersion
  | existsQuery (tables : List String)
deriving DecidableEq

/-- Externally observable actions of the pipeline code: HTTP requests,
external tool invocations, file writes and file deletions. -/
inductive Event
  | httpGet (url : String)
  | toolRun (cmd : List String)
  | fileWrite (path : String)
  | fileDelete (path : String)
deriving DecidableEq

/-- Outcome of one HTTP GET: a successful body, a transport failure before
any byte is written, or a failure after a partial body was written. -/
inductive HttpResp
  | ok (body : String)
  | errClean
  | errMid (written : String)
deriving DecidableEq

/-- The HTTP world: responses by URL; a URL not in the table fails cleanly. -/
def httpFetch (tbl : List (String × HttpResp)) (url : String) : HttpResp :=
  (((tbl.find? (fun p => p.1 = url)).map (fun p => p.2))).getD HttpResp.errClean

/-! ## Configuration loading (config.py of both jobs) -/

/-- ConfigurationError carrying its message. -/
inductive ConfigError
  | mk (msg : String)
deriving DecidableEq

/-- get_env_bool, identical in both config.py files: unset or empty gives the
default, otherwise membership of the lowercased value in true/1/yes/on. -/
def getEnvBool (env : Env) (key : String) (dflt : Bool) : Bool :=
  let value := pyLower (getenvD env key "")
  if value = "" then dflt
  else decide (value ∈ ["true", "1", "yes", "on"])

/-- get_env_int, identical in both config.py files: unset or empty gives the
default, a non-integer value is a ConfigurationError naming key and value. -/
def getEnvInt (env : Env) (key : String) (dflt : Int) : Except ConfigError Int :=
  match lookupEnv env key with
  | none => .ok dflt
  | some v =>
    if v = "" then .ok dflt
    else
      match pyParseInt v with
      | some n => .ok n
      | none => .error (.mk (key ++ " must be an integer, got: " ++ v))

/-- The Config dataclass of the OSM job. -/
structure OsmConfig where
  region : String
  dbHost : String
  dbPort : Int
  dbName : String
  dbUser : String
  dbPassword : String
  cacheSizeMb : Int
  numProcesses : Int
  cleanup : Bool
  dropSlimTables : Bool
  dataDir : String
  geofabrikBaseUrl : String
  logLevel : String
  logFormat : String
deriving DecidableEq

/-- raw_dir property of the OSM Config. -/
def OsmConfig.rawDir (c : OsmConfig) : String := c.dataDir ++ "/raw"

/-- filtered_dir property of the OSM Config. -/
def OsmConfig.filteredDir (c : OsmConfig) : String := c.dataDir ++ "/filtered"

/-- get_download_url of the OSM Config: special planet handling, otherwise
base URL plus region-latest.osm.pbf. -/
def OsmConfig.getDownloadUrl (c : OsmConfig) : String :=
  if c.region = "planet" then
    if containsStr c.geofabrikBaseUrl "download.geofabrik.de" then
      "https://planet.openstreetmap.org/pbf/planet-latest.osm.pbf"
    else c.geofabrikBaseUrl ++ "/planet-latest.osm.pbf"
  else c.geofabrikBaseUrl ++ "/" ++ c.region ++ "-latest.osm.pbf"

/-- REGIONS list of the OSM config module. -/
def REGIONS : List String :=
  ["africa", "antarctica", "asia", "australia-oceania", "central-america",
   "europe", "north-america", "south-america", "planet"]

/-- join of the REGIONS list as printed in error messages. -/
def regionsJoined : String := String.intercalate ", " REGIONS

/-- load_config of the OSM job, checks in source order: OSM_REGION presence
and membership, the four DB variables, then the integer, boolean, path, URL
and logging variables. -/
def osmLoadConfig (env : Env) : Except ConfigError OsmConfig :=
  let region := pyTrim (getenvD env "OSM_REGION" "")
  if region = "" then
    .error (.mk ("OSM_REGION environment variable is required.\nAvailable regions: " ++ regionsJoined))
  else if !(REGIONS.contains region) then
    .error (.mk ("Invalid region: " ++ region ++ "\nAvailable regions: " ++ regionsJoined))
  else
    let dbHost := pyTrim (getenvD env "DB_HOST" "")
    let dbName := pyTrim (getenvD env "DB_NAME" "")
    let dbUser := pyTrim (getenvD env "DB_USER" "")
    let dbPassword := pyTrim (getenvD env "DB_PASSWORD" "")
    if dbHost = "" then .error (.mk "DB_HOST environment variable is required")
    else if dbName = "" then .error (.mk "DB_NAME environment variable is required")
    else if dbUser = "" then .error (.mk "DB_USER environment variable is required")
    else if dbPassword = "" then .error (.mk "DB_PASSWORD environment variable is required")
    else
      match getEnvInt env "DB_PORT" 5432 with
      | .error e => .error e
      | .ok dbPort =>
      match getEnvInt env "CACHE_SIZE_MB" 2000 with
      | .error e => .error e
      | .ok cacheSizeMb =>
      match getEnvInt env "NUM_PROCESSES" 4 with
      | .error e => .error e
      | .ok numProcesses =>
        let cleanup := getEnvBool env "CLEANUP" true
        let dropSlimTables := getEnvBool env "DROP_SLIM_TABLES" false
        let dataDir := getenvD env "DATA_DIR" "/app/data"
        let geofabrikBaseUrl := rstripSlashes (getenvD env "GEOFABRIK_BASE_URL" "https://download.geofabrik.de")
        let logLevel := pyUpper (getenvD env "LOG_LEVEL" "INFO")
        if !(["DEBUG", "INFO", "WARNING", "ERROR"].contains logLevel) then
          .error (.mk ("Invalid LOG_LEVEL: " ++ logLevel ++ ". Must be one of: DEBUG, INFO, WARNING, ERROR"))
        else
          let logFormat := pyLower (getenvD env "LOG_FORMAT" "json")
          -- source message quotes the two values; quotes dropped here
          if !(["json", "text"].contains logFormat) then
            .error (.mk ("Invalid LOG_FORMAT: " ++ logFormat ++ ". Must be json or text"))
          else
            .ok { region := region, dbHost := dbHost, dbPort := dbPort, dbName := dbName,
                  dbUser := dbUser, dbPassword := dbPassword, cacheSizeMb := cacheSizeMb,
                  numProcesses := numProcesses, cleanup := cleanup,
                  dropSlimTables := dropSlimTables, dataDir := dataDir,
                  geofabrikBaseUrl := geofabrikBaseUrl, logLevel := logLevel,
                  logFormat := logFormat }

/-- The Config dataclass of the GADM job. -/
structure GadmConfig where
  dbHost : String
  dbPort : Int
  dbName : String
  dbUser : String
  dbPassword : String
  dataDir : String
  ogr2ogrPath : String
  gadmGeopackageUrl : String
deriving DecidableEq

/-- raw_dir property of the GADM Config: the extracted geopackage path. -/
def GadmConfig.rawDir (c : GadmConfig) : String := c.dataDir ++ "/gadm_410-levels.gpkg"

/-- zip_dir property of the GADM Config: the downloaded archive path. -/
def GadmConfig.zipDir (c : GadmConfig) : String := c.dataDir ++ "/gadm_410-levels.zip"

/-- md5_dir property of the GADM Config: the stored checksum path. -/
def GadmConfig.md5Dir (c : GadmConfig) : String := c.dataDir ++ "/gadm_410-levels.md5"

/-- connection_string property of the GADM Config. -/
def GadmConfig.connectionString (c : GadmConfig) : String :=
  "host=" ++ c.dbHost ++ " port=" ++ toString c.dbPort ++ " dbname=" ++ c.dbName ++
  " user=" ++ c.dbUser ++ " password=" ++ c.dbPassword

/-- load_config of the GADM job: the four DB variables trimmed and checked in
order, then DB_PORT, DATA_DIR, OGR2OGR_PATH, and GADM_GEOPACKAGE_URL; note the
URL is read without strip and only rejected when unset or the empty string. -/
def gadmLoadConfig (env : Env) : Except ConfigError GadmConfig :=
  let dbHost := pyTrim (getenvD env "DB_HOST" "")
  let dbName := pyTrim (getenvD env "DB_NAME" "")
  let dbUser := pyTrim (getenvD env "DB_USER" "")
  let dbPassword := pyTrim (getenvD env "DB_PASSWORD" "")
  if dbHost = "" then .error (.mk "DB_HOST environment variable is required")
  else if dbName = "" then .error (.mk "DB_NAME environment variable is required")
  else if dbUser = "" then .error (.mk "DB_USER environment variable is required")
  else if dbPassword = "" then .error (.mk "DB_PASSWORD environment variable is required")
  else
    match getEnvInt env "DB_PORT" 5432 with
    | .error e => .error e
    | .ok dbPort =>
      let dataDir := getenvD env "DATA_DIR" "/app/data"
      let ogr2ogrPath := getenvD env "OGR2OGR_PATH" "/usr/bin/ogr2ogr"
      match lookupEnv env "GADM_GEOPACKAGE_URL" with
      | none => .error (.mk "GADM_GEOPACKAGE_URL environment variable is required")
      | some url =>
        if url = "" then .error (.mk "GADM_GEOPACKAGE_URL environment variable is required")
        else
          .ok { dbHost := dbHost, dbPort := dbPort, dbName := dbName, dbUser := dbUser,
                dbPassword := dbPassword, dataDir := dataDir, ogr2ogrPath := ogr2ogrPath,
                gadmGeopackageUrl := url }

/-! ## Database layer (database.py of both jobs) -/

/-- State of the external PostgreSQL server as observed by this code:
whether a connection can be opened, whether the named database appears in
pg_database, its encoding, its installed extensions, and its tables. -/
structure DBState where
  reachable : Bool
  datnameFound : Bool
  encoding : String
  extensions : List String
  tables : List String
deriving DecidableEq

/-- DatabaseError cases raised by verify_connection, by constructor rather
than by rendered message text. -/
inductive DbErr
  | connectFailed
  | notFound (dbName : String)
  | encodingMismatch (found : String)
deriving DecidableEq

/-- Add an extension if absent (CREATE EXTENSION IF NOT EXISTS). -/
def addExt (exts : List String) (e : String) : List String :=
  if exts.contains e then exts else exts ++ [e]

/-- verify_connection of the OSM job: connect, check the encoding row for the
named database, fail hard on a non-UTF8 encoding, then create the postgis and
hstore extensions.  Returns the updated database state and the SQL trace. -/
def osmVerifyConnection (dbName : String) (db : DBState) :
    Except DbErr DBState × List SqlOp :=
  if !db.reachable then (.error .connectFailed, [])
  else if !db.datnameFound then (.error (.notFound dbName), [.encodingQuery dbName])
  else if db.encoding != "UTF8" then
    (.error (.encodingMismatch db.encoding), [.encodingQuery dbName])
  else
    (.ok { db with extensions := addExt (addExt db.extensions "postgis") "hstore" },
     [.encodingQuery dbName, .createExt "postgis", .selectPostgisVersion, .createExt "hstore"])

/-- verify_connection of the GADM job: same connect and encoding checks, but a
non-UTF8 encoding is corrected by an administrative UPDATE on pg_database and
the run proceeds; then the same two extensions are created. -/
def gadmVerifyConnection (dbName : String) (db : DBState) :
    Except DbErr DBState × List SqlOp :=
  if !db.reachable then (.error .connectFailed, [])
  else if !db.datnameFound then (.error (.notFound dbName), [.encodingQuery dbName])
  else if db.encoding != "UTF8" then
    (.ok { db with encoding := "UTF8",
                   extensions := addExt (addExt db.extensions "postgis") "hstore" },
     [.encodingQuery dbName, .updateEncoding dbName, .createExt "postgis",
      .selectPostgisVersion, .createExt "hstore"])
  else
    (.ok { db with extensions := addExt (addExt db.extensions "postgis") "hstore" },
     [.encodingQuery dbName, .createExt "postgis", .selectPostgisVersion, .createExt "hstore"])

/-- Table names whose presence makes the OSM job skip. -/
def osmTables : List String := ["planet_osm_point", "planet_osm_line", "planet_osm_polygon"]

/-- Table names whose presence makes the GADM job skip. -/
def gadmTables : List String := ["admin0", "admin1", "admin2", "admin3", "admin4", "admin5"]

/-- check_existing_data of the OSM job: EXISTS query over the three
planet_osm tables; a connection failure is a DatabaseError. -/
def osmCheckExisting (db : DBState) : Except DbErr Bool :=
  if !db.reachable then .error .connectFailed
  else .ok (osmTables.any (fun t => db.tables.contains t))

/-- check_existing_data of the GADM job: EXISTS query over admin0..admin5;
a connection failure is a DatabaseError. -/
def gadmCheckExisting (db : DBState) : Except DbErr Bool :=
  if !db.reachable then .error .connectFailed
  else .ok (gadmTables.any (fun t => db.tables.contains t))

/-! ## OSM fetcher (osm-ingestion download.py) -/

/-- DownloadError of the OSM job / propagated requests exception of the GADM
job, by constructor. -/
inductive DlErr
  | requestFailed
deriving DecidableEq

/-- Destination path of the OSM download: raw_dir / region-latest.osm.pbf. -/
def osmRawFile (c : OsmConfig) : String :=
  c.rawDir ++ "/" ++ c.region ++ "-latest.osm.pbf"

/-- download_region: skip when the destination exists (any content);
otherwise one streaming GET writing the body; on a transport failure any
partially written destination file is unlinked before DownloadError. -/
def downloadRegion (cfg : OsmConfig) (http : List (String × HttpResp)) (fs : FS) :
    Except DlErr String × FS × List Event :=
  let url := cfg.getDownloadUrl
  let output := osmRawFile cfg
  if fsExists fs output then (.ok output, fs, [])
  else
    match httpFetch http url with
    | .ok body =>
        (.ok output, fsWrite fs output body, [.httpGet url, .fileWrite output])
    | .errClean => (.error .requestFailed, fs, [.httpGet url])
    | .errMid written =>
        (.error .requestFailed, fsDelete (fsWrite fs output written) output,
         [.httpGet url, .fileWrite output, .fileDelete output])

/-! ## GADM fetcher (gadm-ingestion download.py) -/

/-- Stand-in for the external hashlib.md5 hexdigest: a deterministic digest of
the content.  The only properties used are that it is a function of the
content and is never the empty string (a real hexdigest has 32 characters). -/
def md5Hex (s : String) : String :=
  ⟨'h' :: (toString (s.data.foldl (fun a c => (a * 131 + c.toNat) % 1000000007) 7)).data⟩

/-- Stand-in for the external zipfile extraction in _extract_gpkg: the archive
content stands for the content of its single contained .gpkg member. -/
def unzipGpkg (zipContent : String) : String := zipContent

/-- _read_md5: stored checksum text stripped, none when the file is missing. -/
def readMd5 (fs : FS) (p : String) : Option String := (fsRead fs p).map pyTrim

/-- Python truthiness test applied to the optional stored checksum:
none and the empty string are falsy. -/
def pyFalsyOpt (o : Option String) : Bool :=
  match o with
  | none => true
  | some s => s = ""

/-- The download guard of download_geopackage_levels, exactly as in the
source: download when the zip is absent, the stored digest is falsy, or the
computed digest of the existing zip differs from the stored digest. -/
def gadmDownloadNeeded (cfg : GadmConfig) (fs : FS) : Bool :=
  !(fsExists fs cfg.zipDir) || pyFalsyOpt (readMd5 fs cfg.md5Dir) ||
    (md5Hex (fsReadD fs cfg.zipDir "") != (readMd5 fs cfg.md5Dir).getD "")

/-- _extract_gpkg applied to the filesystem: write the extracted member at
the canonical gpkg path. -/
def extractGpkg (fs : FS) (zipP gpkgP : String) : FS :=
  fsWrite fs gpkgP (unzipGpkg (fsReadD fs zipP ""))

/-- download_geopackage_levels: checksum-gated download of the zip, digest
rewrite after a successful download, then extraction of the gpkg.  On a
download failure the exception propagates and no cleanup of a partially
written zip is performed. -/
def gadmDownload (cfg : GadmConfig) (http : List (String × HttpResp)) (fs : FS) :
    Except DlErr String × FS × List Event :=
  let zipP := cfg.zipDir
  let gpkgP := cfg.rawDir
  let md5P := cfg.md5Dir
  if gadmDownloadNeeded cfg fs then
    match httpFetch http cfg.gadmGeopackageUrl with
    | .ok body =>
        let fs1 := fsWrite fs zipP body
        let fs2 := fsWrite fs1 md5P (md5Hex body)
        (.ok gpkgP, extractGpkg fs2 zipP gpkgP,
         [.httpGet cfg.gadmGeopackageUrl, .fileWrite zipP, .fileWrite md5P, .fileWrite gpkgP])
    | .errClean => (.error .requestFailed, fs, [.httpGet cfg.gadmGeopackageUrl])
    | .errMid written =>
        (.error .requestFailed, fsWrite fs zipP written,
         [.httpGet cfg.gadmGeopackageUrl, .fileWrite zipP])
  else
    (.ok gpkgP, extractGpkg fs zipP gpkgP, [.fileWrite gpkgP])

/-- cleanup_geopackage: delete the gpkg when present; a missing file is only
reported, never an error. -/
def cleanupGeopackage (cfg : GadmConfig) (fs : FS) : FS × List Event :=
  if fsExists fs cfg.rawDir then (fsDelete fs cfg.rawDir, [.fileDelete cfg.rawDir])
  else (fs, [])

/-! ## GADM loader (gadm-ingestion upload.py) -/

/-- Errors raised by upload_levels_gpkg, by constructor: FileNotFoundError,
ValueError with its message, and CalledProcessError from a failed ogr2ogr. -/
inductive GadmUpErr
  | fileNotFound (path : String)
  | valueError (msg : String)
  | toolFailed
deriving DecidableEq

/-- Destination table derivation in the upload loop: split the layer name on
underscores, require at least two parts, and append the second part to the
word admin.  So ADM_2 gives admin2, while gadm41_adm2 gives adminadm2. -/
def layerTableName (layer : String) : Except String String :=
  let parts := pySplit layer '_' 
  if parts.length < 2 then
    .error ("Invalid layer name format: " ++ layer ++ ". Expected format: gadmN_admN")
  else .ok ("admin" ++ parts.getD 1 "")

/-- The exact ogr2ogr argument vector built per layer. -/
def gadmOgrCmd (cfg : GadmConfig) (tableName layer : String) : List String :=
  [cfg.ogr2ogrPath,
   "--config", "PG_USE_COPY", "YES",
   "-overwrite",
   "-gt", "100000",
   "-f", "PostgreSQL",
   "-nln", tableName,
   "-nlt", "PROMOTE_TO_MULTI",
   "-lco", "GEOMETRY_NAME=geom",
   "-lco", "FID=ogc_fid",
   "-lco", "SPATIAL_INDEX=GIST",
   "-sql", "SELECT * FROM " ++ layer,
   "PG:" ++ cfg.connectionString,
   cfg.rawDir]

/-- Stand-in for the external sqlite3 read of the gpkg_contents catalog: the
file content stands for its comma separated feature layer list. -/
def gpkgLayers (content : String) : List String :=
  (pySplit content ',').filter (fun l => l != "")

/-- Insertion into a sorted list of strings. -/
def insertSorted (x : String) : List String → List String
  | [] => [x]
  | y :: ys => if x ≤ y then x :: y :: ys else y :: insertSorted x ys

/-- ORDER BY table_name of the catalog query: sort the layer names. -/
def sortStrings (l : List String) : List String := l.foldr insertSorted []

/-- The per-layer import loop of upload_levels_gpkg: derive the table name
(raising ValueError on a malformed layer name before invoking the tool for
that layer), invoke ogr2ogr, and stop with CalledProcessError when the tool
fails.  ogrOk gives the outcome of every external ogr2ogr run. -/
def uploadLoop (cfg : GadmConfig) (ogrOk : Bool) :
    List String → Except GadmUpErr Unit × List Event
  | [] => (.ok (), [])
  | layer :: rest =>
    match layerTableName layer with
    | .error m => (.error (.valueError m), [])
    | .ok tbl =>
      let ev := Event.toolRun (gadmOgrCmd cfg tbl layer)
      if ogrOk then
        let r := uploadLoop cfg ogrOk rest
        (r.1, ev :: r.2)
      else (.error .toolFailed, [ev])

/-- upload_levels_gpkg: require the gpkg to exist, read and sort the feature
layer catalog, require it nonempty, then run the import loop. -/
def uploadLevelsGpkg (cfg : GadmConfig) (ogrOk : Bool) (fs : FS) :
    Except GadmUpErr Unit × List Event :=
  if !(fsExists fs cfg.rawDir) then (.error (.fileNotFound cfg.rawDir), [])
  else
    let layers := sortStrings (gpkgLayers (fsReadD fs cfg.rawDir ""))
    if layers = [] then
      (.error (.valueError ("No feature layers found in " ++ cfg.rawDir)), [])
    else uploadLoop cfg ogrOk layers

/-! ## OSM transformer (osm-ingestion filter.py) -/

/-- FilterError, by constructor. -/
inductive FilterErr
  | toolFailed
deriving DecidableEq

/-- Errors of upload_to_database, by constructor. -/
inductive OsmUpErr
  | toolFailed
deriving DecidableEq

/-- Last path component, as Path.name. -/
def pathFileName (p : String) : String := (pySplit p '/').getLastD p

/-- Path.stem: the file name with its last dot suffix removed. -/
def pathStem (name : String) : String :=
  let parts := pySplit name '.' 
  if parts.length ≤ 1 then name
  else String.intercalate "." parts.dropLast

/-- Output path chosen by filter_osm_data: the input stem with -latest
removed, in the filtered directory with the -roads.osm.pbf suffix. -/
def filterOutputPath (cfg : OsmConfig) (inputPath : String) : String :=
  let baseName := pyReplace (pathStem (pathFileName inputPath)) "-latest" ""
  cfg.filteredDir ++ "/" ++ baseName ++ "-roads.osm.pbf"

/-- The exact osmium argument vector of filter_roads. -/
def osmiumCmd (inputPath outputPath : String) : List String :=
  ["osmium", "tags-filter", inputPath, "w/highway", "-o", outputPath,
   "--overwrite", "--progress"]

/-- filter_osm_data: skip when the output already exists, otherwise invoke
osmium which on success writes the output file; a nonzero tool exit is a
FilterError.  filterOk gives the external tool outcome; the output content is
a function of the input content. -/
def filterOsmData (cfg : OsmConfig) (filterOk : Bool) (inputPath : String) (fs : FS) :
    Except FilterErr String × FS × List Event :=
  let output := filterOutputPath cfg inputPath
  if fsExists fs output then (.ok output, fs, [])
  else if filterOk then
    (.ok output, fsWrite fs output ("roads(" ++ fsReadD fs inputPath "" ++ ")"),
     [.toolRun (osmiumCmd inputPath output), .fileWrite output])
  else (.error .toolFailed, fs, [.toolRun (osmiumCmd inputPath output)])

/-! ## OSM loader (osm-ingestion upload.py) -/

/-- The exact osm2pgsql argument vector of upload_to_database. -/
def osm2pgsqlCmd (cfg : OsmConfig) (pbf : String) : List String :=
  ["osm2pgsql", "--slim", "--hstore", "--multi-geometry", "--create",
   "-d", cfg.dbName, "-U", cfg.dbUser, "-H", cfg.dbHost, "-P", toString cfg.dbPort,
   "-S", "/usr/share/osm2pgsql/default.style",
   "--cache", toString cfg.cacheSizeMb,
   "--number-processes", toString cfg.numProcesses] ++
  (if cfg.dropSlimTables then ["--drop"] else []) ++ [pbf]

/-- upload_to_database: one osm2pgsql invocation; a nonzero exit is an
UploadError.  uploadOk gives the external tool outcome. -/
def uploadToDatabase (cfg : OsmConfig) (uploadOk : Bool) (pbf : String) :
    Except OsmUpErr Unit × List Event :=
  if uploadOk then (.ok (), [.toolRun (osm2pgsqlCmd cfg pbf)])
  else (.error .toolFailed, [.toolRun (osm2pgsqlCmd cfg pbf)])

/-! ## Pipeline drivers -/

/-- Outcome of a whole run: a process exit code, or a crash from an
exception the driver does not catch (the GADM driver catches only
ConfigurationError). -/
inductive RunResult
  | exit (code : Nat)
  | crash (tag : String)
deriving DecidableEq

/-- The world an OSM run interacts with: the environment, the database, the
filesystem, the HTTP responses, and the outcomes of the two external tools. -/
structure OsmWorld where
  env : Env
  db : DBState
  fs : FS
  http : List (String × HttpResp)
  filterOk : Bool
  uploadOk : Bool

/-- main of the OSM job: config (exit 1 on error), verify (exit 4), check
existing (exit 4, or exit 0 skip when tables exist), download (exit 2),
filter (exit 3), raw-file cleanup when configured, upload (exit 4),
filtered-file cleanup when configured, exit 0. -/
def osmMain (w : OsmWorld) : Nat × List Event × FS :=
  match osmLoadConfig w.env with
  | .error _ => (1, [], w.fs)
  | .ok cfg =>
    match (osmVerifyConnection cfg.dbName w.db).1 with
    | .error _ => (4, [], w.fs)
    | .ok db1 =>
      match osmCheckExisting db1 with
      | .error _ => (4, [], w.fs)
      | .ok true => (0, [], w.fs)
      | .ok false =>
        match downloadRegion cfg w.http w.fs with
        | (.error _, fs1, evs1) => (2, evs1, fs1)
        | (.ok rawPath, fs1, evs1) =>
          match filterOsmData cfg w.filterOk rawPath fs1 with
          | (.error _, fs2, evs2) => (3, evs1 ++ evs2, fs2)
          | (.ok filteredPath, fs2, evs2) =>
            let rawClean :=
              if cfg.cleanup && fsExists fs2 rawPath then
                (fsDelete fs2 rawPath, [Event.fileDelete rawPath])
              else (fs2, ([] : List Event))
            match uploadToDatabase cfg w.uploadOk filteredPath with
            | (.error _, evs4) => (4, evs1 ++ evs2 ++ rawClean.2 ++ evs4, rawClean.1)
            | (.ok _, evs4) =>
              let filtClean :=
                if cfg.cleanup && fsExists rawClean.1 filteredPath then
                  (fsDelete rawClean.1 filteredPath, [Event.fileDelete filteredPath])
                else (rawClean.1, ([] : List Event))
              (0, evs1 ++ evs2 ++ rawClean.2 ++ evs4 ++ filtClean.2, filtClean.1)

/-- The world a GADM run interacts with. -/
structure GadmWorld where
  env : Env
  db : DBState
  fs : FS
  http : List (String × HttpResp)
  ogrOk : Bool

/-- main of the GADM job: config (exit 1 on ConfigurationError), then
verify, check existing (skip with exit 0 when tables exist and force is not
set), download, upload, cleanup, exit 0.  Every error after config loading
is an uncaught exception: the run crashes instead of returning. -/
def gadmMain (force : Bool) (w : GadmWorld) : RunResult × List Event × FS :=
  match gadmLoadConfig w.env with
  | .error _ => (.exit 1, [], w.fs)
  | .ok cfg =>
    match (gadmVerifyConnection cfg.dbName w.db).1 with
    | .error _ => (.crash "DatabaseError", [], w.fs)
    | .ok db1 =>
      match gadmCheckExisting db1 with
      | .error _ => (.crash "DatabaseError", [], w.fs)
      | .ok exists_ =>
        if exists_ && !force then (.exit 0, [], w.fs)
        else
          match gadmDownload cfg w.http w.fs with
          | (.error _, fs1, evs1) => (.crash "RequestException", evs1, fs1)
          | (.ok _, fs1, evs1) =>
            match uploadLevelsGpkg cfg w.ogrOk fs1 with
            | (.error _, evs2) => (.crash "UploadException", evs1 ++ evs2, fs1)
            | (.ok _, evs2) =>
              let cl := cleanupGeopackage cfg fs1
              (.exit 0, evs1 ++ evs2 ++ cl.2, cl.1)

/-! ## Helper lemmas -/

/-- pyLower preserves the character count. -/
theorem pyLower_length (s : String) : (pyLower s).length = s.length := by
  cases s with
  | mk l => simp [pyLower, String.length]

/-- A nonempty string stays nonempty under pyLower. -/
theorem pyLower_ne_empty {s : String} (h : s ≠ "") : pyLower s ≠ "" := by
  intro he
  apply h
  have hl := congrArg String.length he
  rw [pyLower_length] at hl
  cases s with
  | mk l =>
    cases l with
    | nil => rfl
    | cons a as => simp [String.length] at hl

/-- The digest stand-in is never the empty string. -/
theorem md5Hex_ne_empty (s : String) : md5Hex s ≠ "" := by
  intro he
  have hd := congrArg String.data he
  unfold md5Hex at hd
  exact List.cons_ne_nil _ _ hd

/-- Reading back the path just written. -/
theorem fsRead_fsWrite_self (fs : FS) (p c : String) :
    fsRead (fsWrite fs p c) p = some c := by
  unfold fsRead fsWrite
  rw [List.find?_cons_of_pos]
  · rfl
  · simp

/-- find? over the deletion filter never finds the deleted path. -/
theorem find?_filter_ne (fs : FS) (p : String) :
    (fs.filter (fun q => q.1 != p)).find? (fun q => q.1 = p) = none := by
  induction fs with
  | nil => rfl
  | cons a as ih =>
    rw [List.filter_cons]
    by_cases h : a.1 = p
    · simp only [h, bne_self_eq_false, Bool.false_eq_true, if_false]
      exact ih
    · have hb : (a.1 != p) = true := bne_iff_ne.mpr h
      simp only [hb, if_true]
      rw [List.find?_cons_of_neg]
      · exact ih
      · simp [h]

/-- find? for a different path is unaffected by the deletion filter. -/
theorem find?_filter_other (fs : FS) (p q : String) (h : q ≠ p) :
    (fs.filter (fun r => r.1 != p)).find? (fun r => r.1 = q) =
      fs.find? (fun r => r.1 = q) := by
  induction fs with
  | nil => rfl
  | cons a as ih =>
    rw [List.filter_cons]
    by_cases hp : a.1 = p
    · have hq : ¬(a.1 = q) := fun hq => h (hq.symm.trans hp)
      have hb : (a.1 != p) = false := by simp [hp]
      simp only [hb, Bool.false_eq_true, if_false]
      rw [ih, List.find?_cons_of_neg]
      simp [hq]
    · have hb : (a.1 != p) = true := bne_iff_ne.mpr hp
      simp only [hb, if_true]
      by_cases hq : a.1 = q
      · rw [List.find?_cons_of_pos, List.find?_cons_of_pos] <;> simp [hq]
      · rw [List.find?_cons_of_neg, List.find?_cons_of_neg]
        · exact ih
        · simp [hq]
        · simp [hq]

/-- Reading another path after a write. -/
theorem fsRead_fsWrite_ne (fs : FS) (p c q : String) (h : q ≠ p) :
    fsRead (fsWrite fs p c) q = fsRead fs q := by
  have hne : ¬((p, c).1 = q) := fun hpq => h hpq.symm
  unfold fsRead fsWrite
  rw [List.find?_cons_of_neg, find?_filter_other fs p q h]
  simp [hne]

/-- The deleted path no longer exists. -/
theorem fsRead_fsDelete_self (fs : FS) (p : String) :
    fsRead (fsDelete fs p) p = none := by
  simp [fsRead, fsDelete, find?_filter_ne]

/-- Reading another path after a deletion. -/
theorem fsRead_fsDelete_ne (fs : FS) (p q : String) (h : q ≠ p) :
    fsRead (fsDelete fs p) q = fsRead fs q := by
  simp [fsRead, fsDelete, find?_filter_other fs p q h]

/-- The element just added by addExt is a member. -/
theorem mem_addExt_self (l : List String) (e : String) : e ∈ addExt l e := by
  unfold addExt
  by_cases h : l.contains e
  · simp only [h, if_true]
    exact List.mem_of_elem_eq_true h
  · simp only [h, if_false]
    exact List.mem_append_right l (List.mem_singleton.mpr rfl)

/-- addExt never removes a member. -/
theorem mem_addExt_mono (l : List String) (e f : String) (h : e ∈ l) : e ∈ addExt l f := by
  unfold addExt
  by_cases hc : l.contains f
  · simp only [hc, if_true]; exact h
  · simp only [hc, if_false]; exact List.mem_append_left _ h

/-- A successful OSM verify_connection implies the connection was reachable
and leaves the table set unchanged. -/
theorem osmVerify_ok (n : String) (db db1 : DBState)
    (h : (osmVerifyConnection n db).1 = .ok db1) :
    db1.reachable = true ∧ db1.tables = db.tables := by
  unfold osmVerifyConnection at h
  by_cases h1 : db.reachable
  · by_cases h2 : db.datnameFound
    · by_cases h3 : db.encoding = "UTF8"
      · simp [h1, h2, h3] at h
        rw [← h]
        exact ⟨rfl, rfl⟩
      · simp [h1, h2, h3] at h
    · simp [h1, h2] at h
  · simp [h1] at h

/-- A successful GADM verify_connection implies the connection was reachable
and leaves the table set unchanged. -/
theorem gadmVerify_ok (n : String) (db db1 : DBState)
    (h : (gadmVerifyConnection n db).1 = .ok db1) :
    db1.reachable = true ∧ db1.tables = db.tables := by
  unfold gadmVerifyConnection at h
  by_cases h1 : db.reachable
  · by_cases h2 : db.datnameFound
    · by_cases h3 : db.encoding = "UTF8"
      · simp [h1, h2, h3] at h
        rw [← h]
        exact ⟨rfl, rfl⟩
      · simp [h1, h2, h3] at h
        rw [← h]
        exact ⟨rfl, rfl⟩
    · simp [h1, h2] at h
  · simp [h1] at h

/-- The OSM fetcher trace never contains an external tool invocation. -/
theorem downloadRegion_no_tool (cfg : OsmConfig) (http : List (String × HttpResp))
    (fs : FS) (c : List String) :
    Event.toolRun c ∉ (downloadRegion cfg http fs).2.2 := by
  unfold downloadRegion
  by_cases h : fsExists fs (osmRawFile cfg)
  · simp [h]
  · cases hr : httpFetch http cfg.getDownloadUrl <;> simp [h, hr]

/-- The only path the OSM fetcher ever deletes is its own destination. -/
theorem downloadRegion_delete_mem (cfg : OsmConfig) (http : List (String × HttpResp))
    (fs : FS) (p : String)
    (h : Event.fileDelete p ∈ (downloadRegion cfg http fs).2.2) :
    p = osmRawFile cfg := by
  unfold downloadRegion at h
  by_cases he : fsExists fs (osmRawFile cfg)
  · simp [he] at h
  · cases hr : httpFetch http cfg.getDownloadUrl <;> simp [he, hr] at h
    exact h

/-- The OSM transformer trace never contains a file deletion. -/
theorem filterOsmData_no_delete (cfg : OsmConfig) (ok : Bool) (input : String)
    (fs : FS) (p : String) :
    Event.fileDelete p ∉ (filterOsmData cfg ok input fs).2.2 := by
  unfold filterOsmData
  by_cases h : fsExists fs (filterOutputPath cfg input)
  · simp [h]
  · cases ok <;> simp [h]

/-- Every tool invocation in the OSM transformer trace is the osmium command. -/
theorem filterOsmData_tool_mem (cfg : OsmConfig) (ok : Bool) (input : String)
    (fs : FS) (c : List String)
    (h : Event.toolRun c ∈ (filterOsmData cfg ok input fs).2.2) :
    c = osmiumCmd input (filterOutputPath cfg input) := by
  unfold filterOsmData at h
  by_cases he : fsExists fs (filterOutputPath cfg input)
  · simp [he] at h
  · cases ok <;> simp [he] at h <;> exact h

/-- The OSM loader trace is exactly one osm2pgsql invocation. -/
theorem uploadToDatabase_trace (cfg : OsmConfig) (ok : Bool) (pbf : String) :
    (uploadToDatabase cfg ok pbf).2 = [Event.toolRun (osm2pgsqlCmd cfg pbf)] := by
  unfold uploadToDatabase
  cases ok <;> simp

/-- The GADM fetcher trace never contains a file deletion. -/
theorem gadmDownload_no_delete (cfg : GadmConfig) (http : List (String × HttpResp))
    (fs : FS) (p : String) :
    Event.fileDelete p ∉ (gadmDownload cfg http fs).2.2 := by
  unfold gadmDownload
  by_cases h : gadmDownloadNeeded cfg fs
  · cases hr : httpFetch http cfg.gadmGeopackageUrl <;> simp [h, hr]
  · simp [h]

/-- The GADM import loop trace never contains a file deletion. -/
theorem uploadLoop_no_delete (cfg : GadmConfig) (ok : Bool) (layers : List String)
    (p : String) :
    Event.fileDelete p ∉ (uploadLoop cfg ok layers).2 := by
  induction layers with
  | nil => simp [uploadLoop]
  | cons layer rest ih =>
    unfold uploadLoop
    cases hl : layerTableName layer with
    | error m => simp
    | ok tbl =>
      cases ok with
      | true => simp; exact ih
      | false => simp

/-- The GADM loader trace never contains a file deletion. -/
theorem uploadLevelsGpkg_no_delete (cfg : GadmConfig) (ok : Bool) (fs : FS)
    (p : String) :
    Event.fileDelete p ∉ (uploadLevelsGpkg cfg ok fs).2 := by
  unfold uploadLevelsGpkg
  by_cases h : fsExists fs cfg.rawDir
  · by_cases h2 : sortStrings (gpkgLayers (fsReadD fs cfg.rawDir "")) = []
    · simp [h, h2]
    · simp [h, h2]
      exact uploadLoop_no_delete cfg ok _ p
  · simp [h]

/-! ## Concrete fixtures -/

/-- Concrete fixture: a minimal valid OSM environment. -/
def envOsm : Env :=
  [("OSM_REGION", "europe"), ("DB_HOST", "h"), ("DB_NAME", "d"),
   ("DB_USER", "u"), ("DB_PASSWORD", "p")]

/-- Concrete fixture: the configuration osmLoadConfig derives from envOsm. -/
def cfgOsm : OsmConfig :=
  { region := "europe", dbHost := "h", dbPort := 5432, dbName := "d", dbUser := "u",
    dbPassword := "p", cacheSizeMb := 2000, numProcesses := 4, cleanup := true,
    dropSlimTables := false, dataDir := "/app/data",
    geofabrikBaseUrl := "https://download.geofabrik.de", logLevel := "INFO",
    logFormat := "json" }

/-- Concrete fixture: a minimal valid GADM environment. -/
def envGadm : Env :=
  [("DB_HOST", "h"), ("DB_NAME", "d"), ("DB_USER", "u"), ("DB_PASSWORD", "p"),
   ("GADM_GEOPACKAGE_URL", "http://x/z.zip")]

/-- Concrete fixture: the configuration gadmLoadConfig derives from envGadm. -/
def cfgGadm : GadmConfig :=
  { dbHost := "h", dbPort := 5432, dbName := "d", dbUser := "u", dbPassword := "p",
    dataDir := "/app/data", ogr2ogrPath := "/usr/bin/ogr2ogr",
    gadmGeopackageUrl := "http://x/z.zip" }

/-! ## Claim C10 -/

/-- C10: boolean environment parsing (get_env_bool, used for CLEANUP and
DROP_SLIM_TABLES) is total and never raises: it is a plain Bool-valued
function of the environment.  An unset or empty variable yields the default,
the case-insensitive values true/1/yes/on yield true, and every other
non-empty value yields false. -/
theorem c10_get_env_bool_total (env : Env) (key : String) (dflt : Bool) :
    (getenvD env key "" = "" → getEnvBool env key dflt = dflt) ∧
    (∀ v, lookupEnv env key = some v →
      pyLower v ∈ (["true", "1", "yes", "on"] : List String) →
      getEnvBool env key dflt = true) ∧
    (∀ v, lookupEnv env key = some v → v ≠ "" →
      pyLower v ∉ (["true", "1", "yes", "on"] : List String) →
      getEnvBool env key dflt = false) := by
  refine ⟨?_, ?_, ?_⟩
  · intro h
    unfold getEnvBool
    rw [h]
    rfl
  · intro v hv hmem
    have hg : getenvD env key "" = v := by simp [getenvD, hv]
    unfold getEnvBool
    rw [hg]
    have hne : pyLower v ≠ "" := by
      simp only [List.mem_cons, List.not_mem_nil, or_false, List.mem_singleton] at hmem
      rcases hmem with h | h | h | h <;> rw [h] <;> decide
    rw [if_neg hne]
    simp [hmem]
  · intro v hv hne hmem
    have hg : getenvD env key "" = v := by simp [getenvD, hv]
    unfold getEnvBool
    rw [hg, if_neg (pyLower_ne_empty hne)]
    simp [hmem]

/-- Witness for C10 at concrete inputs: an unrecognized CLEANUP value
disables cleanup even though the default is true; TRUE parses as true; an
unset variable gives the default. -/
theorem c10_get_env_bool_total_witness :
    getEnvBool [("CLEANUP", "sometimes")] "CLEANUP" true = false ∧
    getEnvBool [("CLEANUP", "TRUE")] "CLEANUP" false = true ∧
    getEnvBool [] "CLEANUP" true = true := by
  refine ⟨?_, ?_, ?_⟩
  · exact (c10_get_env_bool_total [("CLEANUP", "sometimes")] "CLEANUP" true).2.2
      "sometimes" (by decide) (by decide) (by decide)
  · exact (c10_get_env_bool_total [("CLEANUP", "TRUE")] "CLEANUP" false).2.1
      "TRUE" (by decide) (by decide)
  · exact (c10_get_env_bool_total [] "CLEANUP" true).1 (by decide)

/-! ## Claim C4 -/

/-- C4: for every starting filesystem state in which the destination file
data_dir/raw/region-latest.osm.pbf already exists, the OSM fetcher performs
no HTTP request regardless of the content of the file (the returned trace is
empty), and returns that existing path with the filesystem unchanged. -/
theorem c4_existence_gated_fetch (cfg : OsmConfig) (http : List (String × HttpResp))
    (fs : FS) (h : fsExists fs (osmRawFile cfg) = true) :
    downloadRegion cfg http fs = (.ok (osmRawFile cfg), fs, []) := by
  unfold downloadRegion
  simp [h]

/-- Witness for C4: a pre-existing destination with junk content is returned
untouched with an empty trace. -/
theorem c4_existence_gated_fetch_witness :
    downloadRegion cfgOsm [] [("/app/data/raw/europe-latest.osm.pbf", "JUNK")] =
      (.ok (osmRawFile cfgOsm), [("/app/data/raw/europe-latest.osm.pbf", "JUNK")], []) :=
  c4_existence_gated_fetch cfgOsm [] _ (by decide)

/-! ## Claim C2 -/

/-- C2 counterexample: the claimed convention gadmN_admM to adminM is not
what the code computes.  The layer gadm41_adm2 maps to table adminadm2, not
admin2; moreover a malformed layer name occurring after a well-formed one
raises its ValueError only after the external tool has been invoked for the
earlier layer. -/
theorem c2_counterexample :
    layerTableName "gadm41_adm2" = .ok "adminadm2" ∧
    ¬ layerTableName "gadm41_adm2" = .ok "admin2" ∧
    uploadLoop cfgGadm true ["ADM_0", "x"] =
      (.error (.valueError "Invalid layer name format: x. Expected format: gadmN_admN"),
       [Event.toolRun (gadmOgrCmd cfgGadm "admin0" "ADM_0")]) := by
  refine ⟨by decide, by decide, by decide⟩

/-- C2 (amended): the destination table name is the word admin followed by
the second underscore-delimited component of the layer name (so ADM_2 maps to
admin2, while gadm41_adm2 maps to adminadm2); a layer name with fewer than
two underscore-delimited parts raises a value error before the external tool
is invoked for that layer, layers earlier in the iteration order having
already triggered one invocation each. -/
theorem c2_layer_table_mapping :
    (∀ layer : String, 2 ≤ (pySplit layer '_').length →
       layerTableName layer = .ok ("admin" ++ (pySplit layer '_').getD 1 "")) ∧
    (∀ layer : String, (pySplit layer '_').length < 2 →
       layerTableName layer =
         .error ("Invalid layer name format: " ++ layer ++ ". Expected format: gadmN_admN")) ∧
    (∀ (cfg : GadmConfig) (pre : List String) (layer : String) (rest : List String),
       (∀ l ∈ pre, 2 ≤ (pySplit l '_').length) →
       (pySplit layer '_').length < 2 →
       uploadLoop cfg true (pre ++ layer :: rest) =
         (.error (.valueError
            ("Invalid layer name format: " ++ layer ++ ". Expected format: gadmN_admN")),
          pre.map (fun l =>
            Event.toolRun (gadmOgrCmd cfg ("admin" ++ (pySplit l '_').getD 1 "") l)))) := by
  refine ⟨?_, ?_, ?_⟩
  · intro layer h
    unfold layerTableName
    rw [if_neg (by omega)]
  · intro layer h
    unfold layerTableName
    rw [if_pos h]
  · intro cfg pre layer rest
    induction pre with
    | nil =>
      intro _ hbad
      have herr : layerTableName layer =
          .error ("Invalid layer name format: " ++ layer ++ ". Expected format: gadmN_admN") := by
        unfold layerTableName
        rw [if_pos hbad]
      simp [uploadLoop, herr]
    | cons l ls ih =>
      intro hpre hbad
      have hl : 2 ≤ (pySplit l '_').length := hpre l (by simp)
      have hok : layerTableName l = .ok ("admin" ++ (pySplit l '_').getD 1 "") := by
        unfold layerTableName
        rw [if_neg (by omega)]
      have ihx := ih (fun x hx => hpre x (by simp [hx])) hbad
      simp only [List.cons_append, List.map_cons]
      unfold uploadLoop
      rw [hok]
      simp [ihx]

/-- Witness for C2: the mapping at ADM_3 and the loop behavior with one
well-formed layer before a malformed one. -/
theorem c2_layer_table_mapping_witness :
    layerTableName "ADM_3" = .ok "admin3" ∧
    uploadLoop cfgGadm true (["ADM_0"] ++ "bad" :: []) =
      (.error (.valueError "Invalid layer name format: bad. Expected format: gadmN_admN"),
       [Event.toolRun (gadmOgrCmd cfgGadm "admin0" "ADM_0")]) := by
  constructor
  · exact c2_layer_table_mapping.1 "ADM_3" (by decide)
  · exact c2_layer_table_mapping.2.2 cfgGadm ["ADM_0"] "bad" []
      (by intro l hl; simp at hl; rw [hl]; decide) (by decide)

/-- Appending different suffixes to the same string gives different strings. -/
theorem strAppend_ne_of_ne (a : String) {b c : String} (h : b.data ≠ c.data) :
    a ++ b ≠ a ++ c := by
  intro he
  apply h
  have hd := congrArg String.data he
  rw [String.data_append, String.data_append] at hd
  exact List.append_cancel_left hd

/-- The three GADM artifact paths are pairwise distinct for every data dir. -/
theorem gadm_paths_ne (cfg : GadmConfig) :
    cfg.rawDir ≠ cfg.md5Dir ∧ cfg.zipDir ≠ cfg.md5Dir ∧ cfg.rawDir ≠ cfg.zipDir := by
  refine ⟨?_, ?_, ?_⟩ <;>
    · simp only [GadmConfig.rawDir, GadmConfig.md5Dir, GadmConfig.zipDir]
      apply strAppend_ne_of_ne
      decide

/-- Fixture: a reachable database with LATIN1 encoding and one OSM table. -/
def dbLatin : DBState :=
  { reachable := true, datnameFound := true, encoding := "LATIN1",
    extensions := [], tables := ["planet_osm_point"] }

/-- Fixture: an unreachable database. -/
def dbUnreachable : DBState :=
  { reachable := false, datnameFound := true, encoding := "UTF8",
    extensions := [], tables := [] }

/-- Fixture: a reachable empty UTF8 database. -/
def dbFresh : DBState :=
  { reachable := true, datnameFound := true, encoding := "UTF8",
    extensions := [], tables := [] }

/-! ## Claim C5 -/

/-- C5 counterexample: the GADM fetcher does not delete a partially written
archive.  With no prior zip the download is needed; a mid-transfer failure
leaves the partial destination file on disk while the error propagates. -/
theorem c5_counterexample :
    (gadmDownload cfgGadm [("http://x/z.zip", HttpResp.errMid "PART")] []).1 =
      .error .requestFailed ∧
    fsRead (gadmDownload cfgGadm [("http://x/z.zip", HttpResp.errMid "PART")] []).2.1
      cfgGadm.zipDir = some "PART" := by
  refine ⟨by decide, by decide⟩

/-- C5 (amended): only the OSM fetcher restores the filesystem on download
failure: after any failed OSM fetch the destination file does not exist.  The
GADM fetcher performs no such cleanup: a mid-transfer failure leaves the
partially written zip archive on disk before the error propagates. -/
theorem c5_download_failure_cleanup :
    (∀ (cfg : OsmConfig) (http : List (String × HttpResp)) (fs : FS) (e : DlErr)
       (fs2 : FS) (evs : List Event),
       downloadRegion cfg http fs = (.error e, fs2, evs) →
       fsExists fs2 (osmRawFile cfg) = false) ∧
    (∀ (cfg : GadmConfig) (http : List (String × HttpResp)) (fs : FS) (written : String),
       gadmDownloadNeeded cfg fs = true →
       httpFetch http cfg.gadmGeopackageUrl = .errMid written →
       (gadmDownload cfg http fs).1 = .error .requestFailed ∧
       fsRead (gadmDownload cfg http fs).2.1 cfg.zipDir = some written) := by
  constructor
  · intro cfg http fs e fs2 evs h
    unfold downloadRegion at h
    by_cases he : fsExists fs (osmRawFile cfg)
    · simp [he] at h
    · rw [Bool.not_eq_true] at he
      cases hr : httpFetch http cfg.getDownloadUrl <;> simp [he, hr] at h
      · rw [← h.1]
        exact he
      · rw [← h.1]
        simp [fsExists, fsRead_fsDelete_self]
  · intro cfg http fs written hneed hr
    unfold gadmDownload
    rw [hneed]
    simp [hr, fsRead_fsWrite_self]

/-- Witness for C5: a clean OSM transport failure leaves no destination file;
a GADM mid-transfer failure with a stale digest file leaves the partial zip. -/
theorem c5_download_failure_cleanup_witness :
    fsExists ([] : FS) (osmRawFile cfgOsm) = false ∧
    ((gadmDownload cfgGadm [("http://x/z.zip", HttpResp.errMid "XY")]
        [("/app/data/gadm_410-levels.md5", "stale")]).1 = .error .requestFailed ∧
     fsRead (gadmDownload cfgGadm [("http://x/z.zip", HttpResp.errMid "XY")]
        [("/app/data/gadm_410-levels.md5", "stale")]).2.1 cfgGadm.zipDir = some "XY") := by
  constructor
  · exact c5_download_failure_cleanup.1 cfgOsm [] [] .requestFailed []
      [Event.httpGet "https://download.geofabrik.de/europe-latest.osm.pbf"] (by decide)
  · exact c5_download_failure_cleanup.2 cfgGadm
      [("http://x/z.zip", HttpResp.errMid "XY")]
      [("/app/data/gadm_410-levels.md5", "stale")] "XY" (by decide) (by decide)

/-! ## Claim C7 -/

/-- C7: on a non-UTF8 encoding the GADM verify_connection issues the
administrative UPDATE and proceeds with the encoding corrected, while the OSM
verify_connection raises the encoding DatabaseError; with a UTF8 encoding, an
unreachable server, or a missing database row the two functions agree exactly
(identical results and identical SQL traces, including creation of the
postgis and hstore extensions, and the not-found DatabaseError). -/
theorem c7_verify_connection_policies (name : String) (db : DBState) :
    (db.reachable = true → db.datnameFound = true → db.encoding ≠ "UTF8" →
       (gadmVerifyConnection name db).1 =
         .ok { db with encoding := "UTF8",
                       extensions := addExt (addExt db.extensions "postgis") "hstore" } ∧
       SqlOp.updateEncoding name ∈ (gadmVerifyConnection name db).2 ∧
       (osmVerifyConnection name db).1 = .error (.encodingMismatch db.encoding)) ∧
    (db.encoding = "UTF8" → gadmVerifyConnection name db = osmVerifyConnection name db) ∧
    (db.reachable = false →
       gadmVerifyConnection name db = osmVerifyConnection name db ∧
       (osmVerifyConnection name db).1 = .error .connectFailed) ∧
    (db.reachable = true → db.datnameFound = false →
       gadmVerifyConnection name db = osmVerifyConnection name db ∧
       (osmVerifyConnection name db).1 = .error (.notFound name)) ∧
    (∀ db1, (gadmVerifyConnection name db).1 = .ok db1 ∨
            (osmVerifyConnection name db).1 = .ok db1 →
       "postgis" ∈ db1.extensions ∧ "hstore" ∈ db1.extensions) := by
  refine ⟨?_, ?_, ?_, ?_, ?_⟩
  · intro h1 h2 h3
    unfold gadmVerifyConnection osmVerifyConnection
    simp [h1, h2, h3]
  · intro h3
    unfold gadmVerifyConnection osmVerifyConnection
    by_cases h1 : db.reachable
    · by_cases h2 : db.datnameFound
      · simp [h1, h2, h3]
      · simp [h1, h2]
    · simp [h1]
  · intro h1
    unfold gadmVerifyConnection osmVerifyConnection
    simp [h1]
  · intro h1 h2
    unfold gadmVerifyConnection osmVerifyConnection
    simp [h1, h2]
  · intro db1 hok
    have hm : db1.extensions = addExt (addExt db.extensions "postgis") "hstore" := by
      rcases hok with h | h
      · unfold gadmVerifyConnection at h
        by_cases h1 : db.reachable
        · by_cases h2 : db.datnameFound
          · by_cases h3 : db.encoding = "UTF8" <;> simp [h1, h2, h3] at h <;> rw [← h]
          · simp [h1, h2] at h
        · simp [h1] at h
      · unfold osmVerifyConnection at h
        by_cases h1 : db.reachable
        · by_cases h2 : db.datnameFound
          · by_cases h3 : db.encoding = "UTF8"
            · simp [h1, h2, h3] at h
              rw [← h]
            · simp [h1, h2, h3] at h
          · simp [h1, h2] at h
        · simp [h1] at h
    rw [hm]
    exact ⟨mem_addExt_mono _ _ _ (mem_addExt_self _ _), mem_addExt_self _ _⟩

/-- Witness for C7: the LATIN1 divergence at a concrete database state, and
agreement at a concrete unreachable state. -/
theorem c7_verify_connection_policies_witness :
    ((gadmVerifyConnection "d" dbLatin).1 =
       .ok { dbLatin with
             encoding := "UTF8",
             extensions := addExt (addExt dbLatin.extensions "postgis") "hstore" } ∧
     SqlOp.updateEncoding "d" ∈ (gadmVerifyConnection "d" dbLatin).2 ∧
     (osmVerifyConnection "d" dbLatin).1 = .error (.encodingMismatch dbLatin.encoding)) ∧
    gadmVerifyConnection "d" dbUnreachable = osmVerifyConnection "d" dbUnreachable := by
  constructor
  · exact (c7_verify_connection_policies "d" dbLatin).1 rfl rfl (by decide)
  · exact ((c7_verify_connection_policies "d" dbUnreachable).2.2.1 rfl).1

/-! ## Claim C3 -/

/-- Is the event an HTTP request. -/
def isHttpEvent : Event → Bool
  | .httpGet _ => true
  | _ => false

/-- The stored digest seen by the guard equals the trimmed raw file content. -/
theorem readMd5_getD (fs : FS) (p : String) :
    (readMd5 fs p).getD "" = pyTrim ((fsRead fs p).getD "") := by
  cases hm : fsRead fs p
  · simp [readMd5, hm]
    rfl
  · simp [readMd5, hm]

/-- C3: the GADM fetcher is checksum gated.  When the zip archive exists, the
digest file exists, and the computed digest of the archive equals the stored
(trimmed) digest, no HTTP request happens: the run only extracts the gpkg.
When the archive is absent, the digest file is absent, or the digests differ,
exactly one HTTP request happens, and if it succeeds the digest file is
rewritten to the digest of the newly downloaded archive. -/
theorem c3_checksum_gated_fetch (cfg : GadmConfig) (http : List (String × HttpResp))
    (fs : FS) :
    (∀ zipc s, fsRead fs cfg.zipDir = some zipc → fsRead fs cfg.md5Dir = some s →
       md5Hex zipc = pyTrim s →
       gadmDownload cfg http fs =
         (.ok cfg.rawDir, extractGpkg fs cfg.zipDir cfg.rawDir,
          [Event.fileWrite cfg.rawDir])) ∧
    ((fsRead fs cfg.zipDir = none ∨ fsRead fs cfg.md5Dir = none ∨
        md5Hex (fsReadD fs cfg.zipDir "") ≠ pyTrim ((fsRead fs cfg.md5Dir).getD "")) →
       ((gadmDownload cfg http fs).2.2.filter isHttpEvent).length = 1 ∧
       (∀ body, httpFetch http cfg.gadmGeopackageUrl = .ok body →
          fsRead (gadmDownload cfg http fs).2.1 cfg.md5Dir = some (md5Hex body))) := by
  constructor
  · intro zipc s hz hm hd
    have h1 : fsExists fs cfg.zipDir = true := by simp [fsExists, hz]
    have h2 : readMd5 fs cfg.md5Dir = some (pyTrim s) := by simp [readMd5, hm]
    have hne : ¬(pyTrim s = "") := by
      rw [← hd]
      exact md5Hex_ne_empty zipc
    have hneed : gadmDownloadNeeded cfg fs = false := by
      unfold gadmDownloadNeeded
      rw [h1, h2]
      simp [pyFalsyOpt, hne, fsReadD, hz, hd]
    unfold gadmDownload
    rw [hneed]
    simp
  · intro hB
    have hneed : gadmDownloadNeeded cfg fs = true := by
      unfold gadmDownloadNeeded
      rcases hB with h | h | h
      · simp [fsExists, h]
      · simp [readMd5, h, pyFalsyOpt]
      · rw [← readMd5_getD] at h
        simp only [Bool.or_eq_true, bne_iff_ne, fsReadD]
        exact Or.inr h
    unfold gadmDownload
    rw [hneed]
    cases hr : httpFetch http cfg.gadmGeopackageUrl with
    | ok body =>
      simp only [if_true, hr]
      constructor
      · simp [isHttpEvent]
      · intro b hb
        injection hb with hbb
        subst hbb
        have hgm : cfg.md5Dir ≠ cfg.rawDir := fun h => (gadm_paths_ne cfg).1 h.symm
        simp only [extractGpkg]
        rw [fsRead_fsWrite_ne _ _ _ _ hgm, fsRead_fsWrite_self]
    | errClean =>
      simp only [if_true, hr]
      constructor
      · simp [isHttpEvent]
      · intro b hb
        exact HttpResp.noConfusion hb
    | errMid w =>
      simp only [if_true, hr]
      constructor
      · simp [isHttpEvent]
      · intro b hb
        exact HttpResp.noConfusion hb

/-- Witness for C3: a matching digest run performs no HTTP request; with an
absent archive one request happens and the digest file is rewritten. -/
theorem c3_checksum_gated_fetch_witness :
    gadmDownload cfgGadm [] [(cfgGadm.zipDir, "Z"), (cfgGadm.md5Dir, md5Hex "Z")] =
      (.ok cfgGadm.rawDir,
       extractGpkg [(cfgGadm.zipDir, "Z"), (cfgGadm.md5Dir, md5Hex "Z")]
         cfgGadm.zipDir cfgGadm.rawDir,
       [Event.fileWrite cfgGadm.rawDir]) ∧
    ((gadmDownload cfgGadm [("http://x/z.zip", HttpResp.ok "B")] []).2.2.filter
        isHttpEvent).length = 1 ∧
    fsRead (gadmDownload cfgGadm [("http://x/z.zip", HttpResp.ok "B")] []).2.1
      cfgGadm.md5Dir = some (md5Hex "B") := by
  refine ⟨?_, ?_, ?_⟩
  · exact (c3_checksum_gated_fetch cfgGadm []
      [(cfgGadm.zipDir, "Z"), (cfgGadm.md5Dir, md5Hex "Z")]).1 "Z" (md5Hex "Z")
      (by decide) (by decide) (by decide)
  · exact ((c3_checksum_gated_fetch cfgGadm [("http://x/z.zip", HttpResp.ok "B")] []).2
      (Or.inl (by decide))).1
  · exact ((c3_checksum_gated_fetch cfgGadm [("http://x/z.zip", HttpResp.ok "B")] []).2
      (Or.inl (by decide))).2 "B" (by decide)

/-! ## Claim C1 -/

/-- The path returned by a successful OSM download is the canonical raw path. -/
theorem downloadRegion_ok_path (cfg : OsmConfig) (http : List (String × HttpResp))
    (fs : FS) (raw : String) (fs1 : FS) (evs1 : List Event)
    (h : downloadRegion cfg http fs = (.ok raw, fs1, evs1)) : raw = osmRawFile cfg := by
  unfold downloadRegion at h
  by_cases he : fsExists fs (osmRawFile cfg)
  · simp [he] at h
    exact h.1.symm
  · cases hr : httpFetch http cfg.getDownloadUrl <;> simp [he, hr] at h
    exact h.1.symm

/-- Fixture: a reachable UTF8 database that already holds an OSM table. -/
def dbOsmFull : DBState :=
  { reachable := true, datnameFound := true, encoding := "UTF8",
    extensions := [], tables := ["planet_osm_line"] }

/-- Fixture: a reachable UTF8 database that already holds a GADM table. -/
def dbGadmFull : DBState :=
  { reachable := true, datnameFound := true, encoding := "UTF8",
    extensions := [], tables := ["admin3"] }

/-- Fixture: an OSM world whose database has an existing table. -/
def wOsmSkip : OsmWorld :=
  { env := envOsm, db := dbOsmFull, fs := [("keep", "k")], http := [],
    filterOk := true, uploadOk := true }

/-- Fixture: a GADM world whose database has an existing table. -/
def wGadmSkip : GadmWorld :=
  { env := envGadm, db := dbGadmFull, fs := [], http := [], ogrOk := true }

/-- Fixture: an OSM world whose database holds a table but uses LATIN1. -/
def wLatin : OsmWorld :=
  { env := envOsm, db := dbLatin, fs := [], http := [], filterOk := true,
    uploadOk := true }

/-- C1 counterexample: a database state in which an expected table exists but
the encoding is LATIN1 makes the OSM driver exit 4 at connection verification
instead of 0, so the claim fails for that database state. -/
theorem c1_counterexample :
    "planet_osm_point" ∈ wLatin.db.tables ∧ osmMain wLatin = (4, [], []) := by
  refine ⟨by decide, by decide⟩

/-- C1 (amended): provided configuration loading and connection verification
succeed, a database state in which any expected target table exists makes
both drivers (without a force override) exit 0 immediately after the
existence check, with an empty event trace: no HTTP request, no external
tool invocation, no file creation or deletion, and an unchanged filesystem. -/
theorem c1_idempotent_skip :
    (∀ (w : OsmWorld) cfg db1, osmLoadConfig w.env = .ok cfg →
       (osmVerifyConnection cfg.dbName w.db).1 = .ok db1 →
       osmTables.any (fun t => db1.tables.contains t) = true →
       osmMain w = (0, [], w.fs)) ∧
    (∀ (w : GadmWorld) cfg db1, gadmLoadConfig w.env = .ok cfg →
       (gadmVerifyConnection cfg.dbName w.db).1 = .ok db1 →
       gadmTables.any (fun t => db1.tables.contains t) = true →
       gadmMain false w = (.exit 0, [], w.fs)) := by
  constructor
  · intro w cfg db1 hload hver hany
    have hreach : db1.reachable = true := (osmVerify_ok _ _ _ hver).1
    have hcheck : osmCheckExisting db1 = .ok true := by
      unfold osmCheckExisting
      rw [hreach, hany]
      simp
    simp only [osmMain, hload, hver, hcheck]
  · intro w cfg db1 hload hver hany
    have hreach : db1.reachable = true := (gadmVerify_ok _ _ _ hver).1
    have hcheck : gadmCheckExisting db1 = .ok true := by
      unfold gadmCheckExisting
      rw [hreach, hany]
      simp
    simp only [gadmMain, hload, hver, hcheck]
    simp

/-- Witness for C1 at concrete skip worlds for both jobs. -/
theorem c1_idempotent_skip_witness :
    osmMain wOsmSkip = (0, [], wOsmSkip.fs) ∧
    gadmMain false wGadmSkip = (.exit 0, [], wGadmSkip.fs) := by
  constructor
  · exact c1_idempotent_skip.1 wOsmSkip cfgOsm
      { dbOsmFull with extensions := addExt (addExt dbOsmFull.extensions "postgis") "hstore" }
      (by decide) (by decide) (by decide)
  · exact c1_idempotent_skip.2 wGadmSkip cfgGadm
      { dbGadmFull with extensions := addExt (addExt dbGadmFull.extensions "postgis") "hstore" }
      (by decide) (by decide) (by decide)

/-! ## Claim C9 -/

/-- The loader and transformer commands are distinct argument vectors. -/
theorem osm2pgsqlCmd_ne_osmiumCmd (cfg : OsmConfig) (p i o : String) :
    osm2pgsqlCmd cfg p ≠ osmiumCmd i o := by
  intro h
  have h2 := congrArg (fun l => List.headD l "x") h
  simp only [osm2pgsqlCmd, osmiumCmd, List.cons_append, List.headD_cons] at h2
  exact absurd h2 (by decide)

/-- C9: the OSM driver exit code is exactly determined by the first failing
step: 1 for a configuration error, 4 for a database error at verify or at
the existence check, 0 for an idempotency skip, 2 for a download error,
3 for a filter error, 4 for an upload error, and 0 on full success; a failure
at any step prevents the later steps (no tool runs after a failed download,
no loader invocation after a failed filter). -/
theorem c9_exit_code_mapping (w : OsmWorld) :
    (∀ m, osmLoadConfig w.env = .error m → osmMain w = (1, [], w.fs)) ∧
    (∀ cfg e, osmLoadConfig w.env = .ok cfg →
       (osmVerifyConnection cfg.dbName w.db).1 = .error e →
       osmMain w = (4, [], w.fs)) ∧
    (∀ cfg db1 e, osmLoadConfig w.env = .ok cfg →
       (osmVerifyConnection cfg.dbName w.db).1 = .ok db1 →
       osmCheckExisting db1 = .error e → osmMain w = (4, [], w.fs)) ∧
    (∀ cfg db1, osmLoadConfig w.env = .ok cfg →
       (osmVerifyConnection cfg.dbName w.db).1 = .ok db1 →
       osmCheckExisting db1 = .ok true → osmMain w = (0, [], w.fs)) ∧
    (∀ cfg db1 e fs1 evs1, osmLoadConfig w.env = .ok cfg →
       (osmVerifyConnection cfg.dbName w.db).1 = .ok db1 →
       osmCheckExisting db1 = .ok false →
       downloadRegion cfg w.http w.fs = (.error e, fs1, evs1) →
       (osmMain w).1 = 2 ∧ ∀ c, Event.toolRun c ∉ (osmMain w).2.1) ∧
    (∀ cfg db1 raw fs1 evs1 e fs2 evs2, osmLoadConfig w.env = .ok cfg →
       (osmVerifyConnection cfg.dbName w.db).1 = .ok db1 →
       osmCheckExisting db1 = .ok false →
       downloadRegion cfg w.http w.fs = (.ok raw, fs1, evs1) →
       filterOsmData cfg w.filterOk raw fs1 = (.error e, fs2, evs2) →
       (osmMain w).1 = 3 ∧
       ∀ p, Event.toolRun (osm2pgsqlCmd cfg p) ∉ (osmMain w).2.1) ∧
    (∀ cfg db1 raw fs1 evs1 filt fs2 evs2 e evs4, osmLoadConfig w.env = .ok cfg →
       (osmVerifyConnection cfg.dbName w.db).1 = .ok db1 →
       osmCheckExisting db1 = .ok false →
       downloadRegion cfg w.http w.fs = (.ok raw, fs1, evs1) →
       filterOsmData cfg w.filterOk raw fs1 = (.ok filt, fs2, evs2) →
       uploadToDatabase cfg w.uploadOk filt = (.error e, evs4) →
       (osmMain w).1 = 4) ∧
    (∀ cfg db1 raw fs1 evs1 filt fs2 evs2 u evs4, osmLoadConfig w.env = .ok cfg →
       (osmVerifyConnection cfg.dbName w.db).1 = .ok db1 →
       osmCheckExisting db1 = .ok false →
       downloadRegion cfg w.http w.fs = (.ok raw, fs1, evs1) →
       filterOsmData cfg w.filterOk raw fs1 = (.ok filt, fs2, evs2) →
       uploadToDatabase cfg w.uploadOk filt = (.ok u, evs4) →
       (osmMain w).1 = 0) := by
  refine ⟨?_, ?_, ?_, ?_, ?_, ?_, ?_, ?_⟩
  · intro m hload
    simp only [osmMain, hload]
  · intro cfg e hload hver
    simp only [osmMain, hload, hver]
  · intro cfg db1 e hload hver hcheck
    simp only [osmMain, hload, hver, hcheck]
  · intro cfg db1 hload hver hcheck
    simp only [osmMain, hload, hver, hcheck]
  · intro cfg db1 e fs1 evs1 hload hver hcheck hdl
    constructor
    · simp only [osmMain, hload, hver, hcheck, hdl]
    · intro c hc
      simp only [osmMain, hload, hver, hcheck, hdl] at hc
      have hnt := downloadRegion_no_tool cfg w.http w.fs c
      rw [hdl] at hnt
      exact hnt hc
  · intro cfg db1 raw fs1 evs1 e fs2 evs2 hload hver hcheck hdl hfl
    constructor
    · simp only [osmMain, hload, hver, hcheck, hdl, hfl]
    · intro p hp
      simp only [osmMain, hload, hver, hcheck, hdl, hfl] at hp
      rcases List.mem_append.mp hp with h | h
      · have hnt := downloadRegion_no_tool cfg w.http w.fs (osm2pgsqlCmd cfg p)
        rw [hdl] at hnt
        exact hnt h
      · have hmem := filterOsmData_tool_mem cfg w.filterOk raw fs1 (osm2pgsqlCmd cfg p)
          (by rw [hfl]; exact h)
        exact osm2pgsqlCmd_ne_osmiumCmd cfg p _ _ hmem
  · intro cfg db1 raw fs1 evs1 filt fs2 evs2 e evs4 hload hver hcheck hdl hfl hup
    simp only [osmMain, hload, hver, hcheck, hdl, hfl, hup]
  · intro cfg db1 raw fs1 evs1 filt fs2 evs2 u evs4 hload hver hcheck hdl hfl hup
    simp only [osmMain, hload, hver, hcheck, hdl, hfl, hup]

/-- Fixture: the HTTP world serving the europe extract. -/
def httpOsm : List (String × HttpResp) :=
  [("https://download.geofabrik.de/europe-latest.osm.pbf", HttpResp.ok "PBF")]

/-- Fixture: an OSM world with an empty environment. -/
def wNoEnv : OsmWorld :=
  { env := [], db := dbFresh, fs := [], http := [], filterOk := true, uploadOk := true }

/-- Fixture: an OSM world whose download fails (no HTTP response). -/
def wDlFail : OsmWorld :=
  { env := envOsm, db := dbFresh, fs := [], http := [], filterOk := true, uploadOk := true }

/-- Fixture: an OSM world in which every step succeeds. -/
def wAllOk : OsmWorld :=
  { env := envOsm, db := dbFresh, fs := [], http := httpOsm, filterOk := true,
    uploadOk := true }

set_option maxRecDepth 4000 in
/-- Witness for C9 at concrete worlds: exit 1 on a missing OSM_REGION, exit 2
with no tool run on a failed download, exit 0 on a fully successful run. -/
theorem c9_exit_code_mapping_witness :
    osmMain wNoEnv = (1, [], []) ∧
    (osmMain wDlFail).1 = 2 ∧
    Event.toolRun ["osmium"] ∉ (osmMain wDlFail).2.1 ∧
    (osmMain wAllOk).1 = 0 := by
  refine ⟨?_, ?_, ?_, ?_⟩
  · exact (c9_exit_code_mapping wNoEnv).1
      (.mk ("OSM_REGION environment variable is required.\nAvailable regions: " ++
        regionsJoined)) (by decide)
  · exact ((c9_exit_code_mapping wDlFail).2.2.2.2.1 cfgOsm
      { dbFresh with extensions := addExt (addExt dbFresh.extensions "postgis") "hstore" }
      .requestFailed []
      [Event.httpGet "https://download.geofabrik.de/europe-latest.osm.pbf"]
      (by decide) (by decide) (by decide) (by decide)).1
  · exact ((c9_exit_code_mapping wDlFail).2.2.2.2.1 cfgOsm
      { dbFresh with extensions := addExt (addExt dbFresh.extensions "postgis") "hstore" }
      .requestFailed []
      [Event.httpGet "https://download.geofabrik.de/europe-latest.osm.pbf"]
      (by decide) (by decide) (by decide) (by decide)).2 ["osmium"]
  · exact (c9_exit_code_mapping wAllOk).2.2.2.2.2.2.2 cfgOsm
      { dbFresh with extensions := addExt (addExt dbFresh.extensions "postgis") "hstore" }
      "/app/data/raw/europe-latest.osm.pbf"
      [("/app/data/raw/europe-latest.osm.pbf", "PBF")]
      [Event.httpGet "https://download.geofabrik.de/europe-latest.osm.pbf",
       Event.fileWrite "/app/data/raw/europe-latest.osm.pbf"]
      "/app/data/filtered/europe.osm-roads.osm.pbf"
      [("/app/data/filtered/europe.osm-roads.osm.pbf", "roads(PBF)"),
       ("/app/data/raw/europe-latest.osm.pbf", "PBF")]
      [Event.toolRun (osmiumCmd "/app/data/raw/europe-latest.osm.pbf"
         "/app/data/filtered/europe.osm-roads.osm.pbf"),
       Event.fileWrite "/app/data/filtered/europe.osm-roads.osm.pbf"]
      () [Event.toolRun (osm2pgsqlCmd cfgOsm "/app/data/filtered/europe.osm-roads.osm.pbf")]
      (by decide) (by decide) (by decide) (by decide) (by decide) (by decide)

/-! ## Claim C6 -/

/-- Fixture: an OSM world in which everything succeeds except the upload. -/
def wUploadFail : OsmWorld :=
  { env := envOsm, db := dbFresh, fs := [], http := httpOsm, filterOk := true,
    uploadOk := false }

set_option maxRecDepth 4000 in
/-- C6 counterexample: in the OSM job the raw file is deleted after a
successful filter step and before the upload, so a run whose upload fails
(exit 4) has already performed a cleanup deletion. -/
theorem c6_counterexample :
    (osmMain wUploadFail).1 = 4 ∧
    Event.fileDelete "/app/data/raw/europe-latest.osm.pbf" ∈ (osmMain wUploadFail).2.1 := by
  refine ⟨by decide, by decide⟩

/-- C6 (amended): in the GADM job no cleanup deletion ever happens in a run
that does not finish with exit 0, and cleanup itself is best-effort (a
missing file leaves the filesystem untouched and raises nothing).  In the
OSM job a run that does not exit 0 deletes at most the raw file, never the
filtered file; in a fully successful fresh run the raw file is deleted after
the successful filter step and before the loader is invoked, and the
filtered file is deleted only after the loader succeeds. -/
theorem c6_cleanup_after_upload :
    (∀ (force : Bool) (w : GadmWorld), (gadmMain force w).1 ≠ .exit 0 →
       ∀ p, Event.fileDelete p ∉ (gadmMain force w).2.1) ∧
    (∀ (cfg : GadmConfig) (fs : FS), fsExists fs cfg.rawDir = false →
       cleanupGeopackage cfg fs = (fs, [])) ∧
    (∀ (w : OsmWorld) cfg, osmLoadConfig w.env = .ok cfg → (osmMain w).1 ≠ 0 →
       ∀ p, Event.fileDelete p ∈ (osmMain w).2.1 → p = osmRawFile cfg) ∧
    (∀ (w : OsmWorld) cfg db1 body,
       osmLoadConfig w.env = .ok cfg →
       (osmVerifyConnection cfg.dbName w.db).1 = .ok db1 →
       osmCheckExisting db1 = .ok false →
       cfg.cleanup = true → w.filterOk = true → w.uploadOk = true →
       fsExists w.fs (osmRawFile cfg) = false →
       httpFetch w.http cfg.getDownloadUrl = .ok body →
       fsExists (fsWrite w.fs (osmRawFile cfg) body)
         (filterOutputPath cfg (osmRawFile cfg)) = false →
       osmRawFile cfg ≠ filterOutputPath cfg (osmRawFile cfg) →
       (osmMain w).2.1 =
         [Event.httpGet cfg.getDownloadUrl,
          Event.fileWrite (osmRawFile cfg),
          Event.toolRun (osmiumCmd (osmRawFile cfg) (filterOutputPath cfg (osmRawFile cfg))),
          Event.fileWrite (filterOutputPath cfg (osmRawFile cfg)),
          Event.fileDelete (osmRawFile cfg),
          Event.toolRun (osm2pgsqlCmd cfg (filterOutputPath cfg (osmRawFile cfg))),
          Event.fileDelete (filterOutputPath cfg (osmRawFile cfg))]) := by
  refine ⟨?_, ?_, ?_, ?_⟩
  · intro force w hne p hp
    rcases hl : gadmLoadConfig w.env with e | cfg
    · simp only [gadmMain, hl] at hp
      exact absurd hp (List.not_mem_nil _)
    · rcases hv : (gadmVerifyConnection cfg.dbName w.db).1 with e | db1
      · simp only [gadmMain, hl, hv] at hp
        exact absurd hp (List.not_mem_nil _)
      · rcases hc : gadmCheckExisting db1 with e | b
        · simp only [gadmMain, hl, hv, hc] at hp
          exact absurd hp (List.not_mem_nil _)
        · by_cases hskip : (b && !force) = true
          · simp only [gadmMain, hl, hv, hc, hskip, if_true] at hp
            exact absurd hp (List.not_mem_nil _)
          · rcases hd : gadmDownload cfg w.http w.fs with ⟨r1, fs1, evs1⟩
            cases r1 with
            | error e =>
              simp only [gadmMain, hl, hv, hc, hskip, if_false, hd,
                Bool.not_eq_true] at hp
              have hno := gadmDownload_no_delete cfg w.http w.fs p
              rw [hd] at hno
              exact hno hp
            | ok g =>
              rcases hu : uploadLevelsGpkg cfg w.ogrOk fs1 with ⟨r2, evs2⟩
              cases r2 with
              | error e =>
                simp only [gadmMain, hl, hv, hc, hskip, if_false, hd, hu,
                  Bool.not_eq_true] at hp
                rcases List.mem_append.mp hp with h | h
                · have hno := gadmDownload_no_delete cfg w.http w.fs p
                  rw [hd] at hno
                  exact hno h
                · have hno := uploadLevelsGpkg_no_delete cfg w.ogrOk fs1 p
                  rw [hu] at hno
                  exact hno h
              | ok u =>
                simp only [gadmMain, hl, hv, hc, hskip, if_false, hd, hu,
                  Bool.not_eq_true] at hne
                exact hne rfl
  · intro cfg fs h
    unfold cleanupGeopackage
    rw [h]
    simp
  · intro w cfg hload hne p hp
    rcases hv : (osmVerifyConnection cfg.dbName w.db).1 with e | db1
    · simp only [osmMain, hload, hv] at hp
      exact absurd hp (List.not_mem_nil _)
    · rcases hc : osmCheckExisting db1 with e | b
      · simp only [osmMain, hload, hv, hc] at hp
        exact absurd hp (List.not_mem_nil _)
      · cases b with
        | true =>
          simp only [osmMain, hload, hv, hc] at hp
          exact absurd hp (List.not_mem_nil _)
        | false =>
          rcases hd : downloadRegion cfg w.http w.fs with ⟨r1, fs1, evs1⟩
          cases r1 with
          | error e =>
            simp only [osmMain, hload, hv, hc, hd] at hp
            have hdm := downloadRegion_delete_mem cfg w.http w.fs p
            rw [hd] at hdm
            exact hdm hp
          | ok raw =>
            have hreq : raw = osmRawFile cfg :=
              downloadRegion_ok_path cfg w.http w.fs raw fs1 evs1 hd
            subst hreq
            rcases hf : filterOsmData cfg w.filterOk (osmRawFile cfg) fs1 with ⟨r2, fs2, evs2⟩
            cases r2 with
            | error e =>
              simp only [osmMain, hload, hv, hc, hd, hf] at hp
              rcases List.mem_append.mp hp with h | h
              · have hdm := downloadRegion_delete_mem cfg w.http w.fs p
                rw [hd] at hdm
                exact hdm h
              · have hno := filterOsmData_no_delete cfg w.filterOk (osmRawFile cfg) fs1 p
                rw [hf] at hno
                exact absurd h hno
            | ok filt =>
              rcases hu : uploadToDatabase cfg w.uploadOk filt with ⟨r3, evs4⟩
              have h4 : evs4 = [Event.toolRun (osm2pgsqlCmd cfg filt)] := by
                have ht := uploadToDatabase_trace cfg w.uploadOk filt
                rw [hu] at ht
                exact ht
              cases r3 with
              | error e =>
                simp only [osmMain, hload, hv, hc, hd, hf, hu] at hp
                by_cases hcond : (cfg.cleanup && fsExists fs2 (osmRawFile cfg)) = true
                · simp only [hcond, if_true] at hp
                  rcases List.mem_append.mp hp with h | h
                  · rcases List.mem_append.mp h with h2 | h2
                    · rcases List.mem_append.mp h2 with h3 | h3
                      · have hdm := downloadRegion_delete_mem cfg w.http w.fs p
                        rw [hd] at hdm
                        exact hdm h3
                      · have hno := filterOsmData_no_delete cfg w.filterOk (osmRawFile cfg) fs1 p
                        rw [hf] at hno
                        exact absurd h3 hno
                    · simp at h2
                      exact h2
                  · rw [h4] at h
                    simp at h
                · simp only [hcond, if_false, Bool.false_eq_true] at hp
                  rcases List.mem_append.mp hp with h | h
                  · rcases List.mem_append.mp h with h2 | h2
                    · rcases List.mem_append.mp h2 with h3 | h3
                      · have hdm := downloadRegion_delete_mem cfg w.http w.fs p
                        rw [hd] at hdm
                        exact hdm h3
                      · have hno := filterOsmData_no_delete cfg w.filterOk (osmRawFile cfg) fs1 p
                        rw [hf] at hno
                        exact absurd h3 hno
                    · exact absurd h2 (List.not_mem_nil _)
                  · rw [h4] at h
                    simp at h
              | ok u =>
                simp only [osmMain, hload, hv, hc, hd, hf, hu] at hne
                exact (hne rfl).elim
  · intro w cfg db1 body hload hver hcheck hcl hfOk huOk hraw hhttp hfilt hnep
    have hdl : downloadRegion cfg w.http w.fs =
        (.ok (osmRawFile cfg), fsWrite w.fs (osmRawFile cfg) body,
         [Event.httpGet cfg.getDownloadUrl, Event.fileWrite (osmRawFile cfg)]) := by
      unfold downloadRegion
      simp [hraw, hhttp]
    have hfl : filterOsmData cfg w.filterOk (osmRawFile cfg)
        (fsWrite w.fs (osmRawFile cfg) body) =
        (.ok (filterOutputPath cfg (osmRawFile cfg)),
         fsWrite (fsWrite w.fs (osmRawFile cfg) body)
           (filterOutputPath cfg (osmRawFile cfg))
           ("roads(" ++ fsReadD (fsWrite w.fs (osmRawFile cfg) body) (osmRawFile cfg) "" ++ ")"),
         [Event.toolRun (osmiumCmd (osmRawFile cfg) (filterOutputPath cfg (osmRawFile cfg))),
          Event.fileWrite (filterOutputPath cfg (osmRawFile cfg))]) := by
      unfold filterOsmData
      simp [hfilt, hfOk]
    have hup : uploadToDatabase cfg w.uploadOk (filterOutputPath cfg (osmRawFile cfg)) =
        (.ok (), [Event.toolRun (osm2pgsqlCmd cfg (filterOutputPath cfg (osmRawFile cfg)))]) := by
      unfold uploadToDatabase
      simp [huOk]
    have hex2 : fsExists
        (fsWrite (fsWrite w.fs (osmRawFile cfg) body)
          (filterOutputPath cfg (osmRawFile cfg))
          ("roads(" ++ fsReadD (fsWrite w.fs (osmRawFile cfg) body) (osmRawFile cfg) "" ++ ")"))
        (osmRawFile cfg) = true := by
      unfold fsExists
      rw [fsRead_fsWrite_ne _ _ _ _ hnep, fsRead_fsWrite_self]
      rfl
    have hex3 : fsExists
        (fsDelete
          (fsWrite (fsWrite w.fs (osmRawFile cfg) body)
            (filterOutputPath cfg (osmRawFile cfg))
            ("roads(" ++ fsReadD (fsWrite w.fs (osmRawFile cfg) body) (osmRawFile cfg) "" ++ ")"))
          (osmRawFile cfg))
        (filterOutputPath cfg (osmRawFile cfg)) = true := by
      unfold fsExists
      rw [fsRead_fsDelete_ne _ _ _ (Ne.symm hnep), fsRead_fsWrite_self]
      rfl
    simp only [osmMain, hload, hver, hcheck, hdl, hfl, hcl, hex2, Bool.and_self,
      if_true, hup, hex3]
    simp

/-- Fixture: a GADM world whose download fails cleanly. -/
def wGadmDlFail : GadmWorld :=
  { env := envGadm, db := dbFresh, fs := [], http := [], ogrOk := true }

set_option maxRecDepth 4000 in
/-- Witness for C6 at concrete worlds: a crashed GADM run performs no
deletion, cleanup of a missing gpkg is a no-op, a failed-upload OSM run
deletes only the raw path, and the fully successful OSM trace shows the raw
deletion between filter and upload and the filtered deletion last. -/
theorem c6_cleanup_after_upload_witness :
    Event.fileDelete "/app/data/gadm_410-levels.gpkg" ∉ (gadmMain false wGadmDlFail).2.1 ∧
    cleanupGeopackage cfgGadm [] = ([], []) ∧
    ("/app/data/raw/europe-latest.osm.pbf" : String) = osmRawFile cfgOsm ∧
    (osmMain wAllOk).2.1 =
      [Event.httpGet cfgOsm.getDownloadUrl,
       Event.fileWrite (osmRawFile cfgOsm),
       Event.toolRun (osmiumCmd (osmRawFile cfgOsm) (filterOutputPath cfgOsm (osmRawFile cfgOsm))),
       Event.fileWrite (filterOutputPath cfgOsm (osmRawFile cfgOsm)),
       Event.fileDelete (osmRawFile cfgOsm),
       Event.toolRun (osm2pgsqlCmd cfgOsm (filterOutputPath cfgOsm (osmRawFile cfgOsm))),
       Event.fileDelete (filterOutputPath cfgOsm (osmRawFile cfgOsm))] := by
  refine ⟨?_, ?_, ?_, ?_⟩
  · exact c6_cleanup_after_upload.1 false wGadmDlFail (by decide)
      "/app/data/gadm_410-levels.gpkg"
  · exact c6_cleanup_after_upload.2.1 cfgGadm [] (by decide)
  · exact c6_cleanup_after_upload.2.2.1 wUploadFail cfgOsm (by decide) (by decide)
      "/app/data/raw/europe-latest.osm.pbf" (by decide)
  · exact c6_cleanup_after_upload.2.2.2 wAllOk cfgOsm
      { dbFresh with extensions := addExt (addExt dbFresh.extensions "postgis") "hstore" }
      "PBF" (by decide) (by decide) (by decide) (by decide) (by decide) (by decide)
      (by decide) (by decide) (by decide) (by decide)

/-! ## Claim C8 -/

/-- Fixture: a GADM environment whose URL is whitespace only. -/
def envGadmWs : Env :=
  [("DB_HOST", "h"), ("DB_NAME", "d"), ("DB_USER", "u"), ("DB_PASSWORD", "p"),
   ("GADM_GEOPACKAGE_URL", " ")]

/-- C8 counterexample: GADM_GEOPACKAGE_URL is read without trimming, so a
whitespace-only value (empty after trimming) is accepted: load_config
succeeds instead of raising a configuration error naming the variable. -/
theorem c8_counterexample :
    lookupEnv envGadmWs "GADM_GEOPACKAGE_URL" = some " " ∧
    pyTrim " " = "" ∧
    gadmLoadConfig envGadmWs =
      .ok { dbHost := "h", dbPort := 5432, dbName := "d", dbUser := "u",
            dbPassword := "p", dataDir := "/app/data",
            ogr2ogrPath := "/usr/bin/ogr2ogr", gadmGeopackageUrl := " " } := by
  refine ⟨by decide, by decide, by decide⟩

/-- C8 (amended): for each variable checked after trimming (OSM_REGION and
the four DB variables in both jobs), absence or emptiness after trimming
raises a configuration error naming that variable (the first such variable
in check order when several are missing); GADM_GEOPACKAGE_URL raises only
when absent or exactly empty, a whitespace-only value being accepted as is;
each integer variable (DB_PORT, CACHE_SIZE_MB, NUM_PROCESSES) that is
present and nonempty but not an integer raises a configuration error naming
both the key and the offending value.  load_config is a pure function of the
environment: no network or database call occurs. -/
theorem c8_config_error_naming :
    (∀ env, pyTrim (getenvD env "OSM_REGION" "") = "" →
       osmLoadConfig env = .error (.mk
         ("OSM_REGION environment variable is required.\nAvailable regions: " ++
          regionsJoined))) ∧
    (∀ env, pyTrim (getenvD env "OSM_REGION" "") ≠ "" →
       REGIONS.contains (pyTrim (getenvD env "OSM_REGION" "")) = true →
       pyTrim (getenvD env "DB_HOST" "") = "" →
       osmLoadConfig env = .error (.mk "DB_HOST environment variable is required")) ∧
    (∀ env, pyTrim (getenvD env "OSM_REGION" "") ≠ "" →
       REGIONS.contains (pyTrim (getenvD env "OSM_REGION" "")) = true →
       pyTrim (getenvD env "DB_HOST" "") ≠ "" →
       pyTrim (getenvD env "DB_NAME" "") = "" →
       osmLoadConfig env = .error (.mk "DB_NAME environment variable is required")) ∧
    (∀ env, pyTrim (getenvD env "OSM_REGION" "") ≠ "" →
       REGIONS.contains (pyTrim (getenvD env "OSM_REGION" "")) = true →
       pyTrim (getenvD env "DB_HOST" "") ≠ "" →
       pyTrim (getenvD env "DB_NAME" "") ≠ "" →
       pyTrim (getenvD env "DB_USER" "") = "" →
       osmLoadConfig env = .error (.mk "DB_USER environment variable is required")) ∧
    (∀ env, pyTrim (getenvD env "OSM_REGION" "") ≠ "" →
       REGIONS.contains (pyTrim (getenvD env "OSM_REGION" "")) = true →
       pyTrim (getenvD env "DB_HOST" "") ≠ "" →
       pyTrim (getenvD env "DB_NAME" "") ≠ "" →
       pyTrim (getenvD env "DB_USER" "") ≠ "" →
       pyTrim (getenvD env "DB_PASSWORD" "") = "" →
       osmLoadConfig env = .error (.mk "DB_PASSWORD environment variable is required")) ∧
    (∀ env v, pyTrim (getenvD env "OSM_REGION" "") ≠ "" →
       REGIONS.contains (pyTrim (getenvD env "OSM_REGION" "")) = true →
       pyTrim (getenvD env "DB_HOST" "") ≠ "" →
       pyTrim (getenvD env "DB_NAME" "") ≠ "" →
       pyTrim (getenvD env "DB_USER" "") ≠ "" →
       pyTrim (getenvD env "DB_PASSWORD" "") ≠ "" →
       lookupEnv env "DB_PORT" = some v → v ≠ "" → pyParseInt v = none →
       osmLoadConfig env = .error (.mk ("DB_PORT must be an integer, got: " ++ v))) ∧
    (∀ env v n, pyTrim (getenvD env "OSM_REGION" "") ≠ "" →
       REGIONS.contains (pyTrim (getenvD env "OSM_REGION" "")) = true →
       pyTrim (getenvD env "DB_HOST" "") ≠ "" →
       pyTrim (getenvD env "DB_NAME" "") ≠ "" →
       pyTrim (getenvD env "DB_USER" "") ≠ "" →
       pyTrim (getenvD env "DB_PASSWORD" "") ≠ "" →
       getEnvInt env "DB_PORT" 5432 = .ok n →
       lookupEnv env "CACHE_SIZE_MB" = some v → v ≠ "" → pyParseInt v = none →
       osmLoadConfig env = .error (.mk ("CACHE_SIZE_MB must be an integer, got: " ++ v))) ∧
    (∀ env v n m, pyTrim (getenvD env "OSM_REGION" "") ≠ "" →
       REGIONS.contains (pyTrim (getenvD env "OSM_REGION" "")) = true →
       pyTrim (getenvD env "DB_HOST" "") ≠ "" →
       pyTrim (getenvD env "DB_NAME" "") ≠ "" →
       pyTrim (getenvD env "DB_USER" "") ≠ "" →
       pyTrim (getenvD env "DB_PASSWORD" "") ≠ "" →
       getEnvInt env "DB_PORT" 5432 = .ok n →
       getEnvInt env "CACHE_SIZE_MB" 2000 = .ok m →
       lookupEnv env "NUM_PROCESSES" = some v → v ≠ "" → pyParseInt v = none →
       osmLoadConfig env = .error (.mk ("NUM_PROCESSES must be an integer, got: " ++ v))) ∧
    (∀ env, pyTrim (getenvD env "DB_HOST" "") = "" →
       gadmLoadConfig env = .error (.mk "DB_HOST environment variable is required")) ∧
    (∀ env, pyTrim (getenvD env "DB_HOST" "") ≠ "" →
       pyTrim (getenvD env "DB_NAME" "") = "" →
       gadmLoadConfig env = .error (.mk "DB_NAME environment variable is required")) ∧
    (∀ env, pyTrim (getenvD env "DB_HOST" "") ≠ "" →
       pyTrim (getenvD env "DB_NAME" "") ≠ "" →
       pyTrim (getenvD env "DB_USER" "") = "" →
       gadmLoadConfig env = .error (.mk "DB_USER environment variable is required")) ∧
    (∀ env, pyTrim (getenvD env "DB_HOST" "") ≠ "" →
       pyTrim (getenvD env "DB_NAME" "") ≠ "" →
       pyTrim (getenvD env "DB_USER" "") ≠ "" →
       pyTrim (getenvD env "DB_PASSWORD" "") = "" →
       gadmLoadConfig env = .error (.mk "DB_PASSWORD environment variable is required")) ∧
    (∀ env v, pyTrim (getenvD env "DB_HOST" "") ≠ "" →
       pyTrim (getenvD env "DB_NAME" "") ≠ "" →
       pyTrim (getenvD env "DB_USER" "") ≠ "" →
       pyTrim (getenvD env "DB_PASSWORD" "") ≠ "" →
       lookupEnv env "DB_PORT" = some v → v ≠ "" → pyParseInt v = none →
       gadmLoadConfig env = .error (.mk ("DB_PORT must be an integer, got: " ++ v))) ∧
    (∀ env n, pyTrim (getenvD env "DB_HOST" "") ≠ "" →
       pyTrim (getenvD env "DB_NAME" "") ≠ "" →
       pyTrim (getenvD env "DB_USER" "") ≠ "" →
       pyTrim (getenvD env "DB_PASSWORD" "") ≠ "" →
       getEnvInt env "DB_PORT" 5432 = .ok n →
       (lookupEnv env "GADM_GEOPACKAGE_URL" = none ∨
        lookupEnv env "GADM_GEOPACKAGE_URL" = some "") →
       gadmLoadConfig env =
         .error (.mk "GADM_GEOPACKAGE_URL environment variable is required")) := by
  refine ⟨?_, ?_, ?_, ?_, ?_, ?_, ?_, ?_, ?_, ?_, ?_, ?_, ?_, ?_⟩
  · intro env h
    simp [osmLoadConfig, h]
  · intro env h1 h2 h3
    simp [osmLoadConfig, h1, h2, List.mem_of_elem_eq_true h2, h3]
  · intro env h1 h2 h3 h4
    simp [osmLoadConfig, h1, h2, List.mem_of_elem_eq_true h2, h3, h4]
  · intro env h1 h2 h3 h4 h5
    simp [osmLoadConfig, h1, h2, List.mem_of_elem_eq_true h2, h3, h4, h5]
  · intro env h1 h2 h3 h4 h5 h6
    simp [osmLoadConfig, h1, h2, List.mem_of_elem_eq_true h2, h3, h4, h5, h6]
  · intro env v h1 h2 h3 h4 h5 h6 hv hvne hparse
    have hgei : getEnvInt env "DB_PORT" 5432 =
        .error (.mk ("DB_PORT must be an integer, got: " ++ v)) := by
      simp [getEnvInt, hv, hvne, hparse]
    simp [osmLoadConfig, h1, h2, List.mem_of_elem_eq_true h2, h3, h4, h5, h6, hgei]
  · intro env v n h1 h2 h3 h4 h5 h6 hport hv hvne hparse
    have hgei : getEnvInt env "CACHE_SIZE_MB" 2000 =
        .error (.mk ("CACHE_SIZE_MB must be an integer, got: " ++ v)) := by
      simp [getEnvInt, hv, hvne, hparse]
    simp [osmLoadConfig, h1, h2, List.mem_of_elem_eq_true h2, h3, h4, h5, h6, hport, hgei]
  · intro env v n m h1 h2 h3 h4 h5 h6 hport hcache hv hvne hparse
    have hgei : getEnvInt env "NUM_PROCESSES" 4 =
        .error (.mk ("NUM_PROCESSES must be an integer, got: " ++ v)) := by
      simp [getEnvInt, hv, hvne, hparse]
    simp [osmLoadConfig, h1, h2, List.mem_of_elem_eq_true h2, h3, h4, h5, h6, hport, hcache, hgei]
  · intro env h1
    simp [gadmLoadConfig, h1]
  · intro env h1 h2
    simp [gadmLoadConfig, h1, h2]
  · intro env h1 h2 h3
    simp [gadmLoadConfig, h1, h2, h3]
  · intro env h1 h2 h3 h4
    simp [gadmLoadConfig, h1, h2, h3, h4]
  · intro env v h1 h2 h3 h4 hv hvne hparse
    have hgei : getEnvInt env "DB_PORT" 5432 =
        .error (.mk ("DB_PORT must be an integer, got: " ++ v)) := by
      simp [getEnvInt, hv, hvne, hparse]
    simp [gadmLoadConfig, h1, h2, h3, h4, hgei]
  · intro env n h1 h2 h3 h4 hport hurl
    rcases hurl with h | h
    · simp [gadmLoadConfig, h1, h2, h3, h4, hport, h]
    · simp [gadmLoadConfig, h1, h2, h3, h4, hport, h]

/-- Witness for C8 at concrete environments: a missing OSM_REGION, a missing
DB_HOST, a non-numeric DB_PORT, and a missing GADM_GEOPACKAGE_URL. -/
theorem c8_config_error_naming_witness :
    osmLoadConfig [] = .error (.mk
      ("OSM_REGION environment variable is required.\nAvailable regions: " ++
       regionsJoined)) ∧
    osmLoadConfig [("OSM_REGION", "europe")] =
      .error (.mk "DB_HOST environment variable is required") ∧
    osmLoadConfig (envOsm ++ [("DB_PORT", "abc")]) =
      .error (.mk ("DB_PORT must be an integer, got: " ++ "abc")) ∧
    gadmLoadConfig [("DB_HOST", "h"), ("DB_NAME", "d"), ("DB_USER", "u"),
      ("DB_PASSWORD", "p")] =
      .error (.mk "GADM_GEOPACKAGE_URL environment variable is required") := by
  refine ⟨?_, ?_, ?_, ?_⟩
  · exact c8_config_error_naming.1 [] (by decide)
  · exact c8_config_error_naming.2.1 [("OSM_REGION", "europe")]
      (by decide) (by decide) (by decide)
  · exact c8_config_error_naming.2.2.2.2.2.1 (envOsm ++ [("DB_PORT", "abc")]) "abc"
      (by decide) (by decide) (by decide) (by decide) (by decide) (by decide)
      (by decide) (by decide) (by decide)
  · exact c8_config_error_naming.2.2.2.2.2.2.2.2.2.2.2.2.2
      [("DB_HOST", "h"), ("DB_NAME", "d"), ("DB_USER", "u"), ("DB_PASSWORD", "p")]
      5432 (by decide) (by decide) (by decide) (by decide) (by decide)
      (Or.inl (by decide))
